import Mathlib

/-!
Shallow embedding of the stock ledger and balance-aggregation engine of
`src/backend/server.py` (Goods Receipt & Issue Management System).

Modelling conventions:
- MongoDB collections become Lean lists held in a `DB` record; `find_one`
  becomes `List.find?` (first match), `insert_one` becomes list append, and
  `update_one` becomes `updateFirst` (modify the first matching element).
- Python `float` quantities are modelled as `ℚ` (the code only adds and
  negates quantities, so exact arithmetic is faithful for the behaviour
  specified).
- `uuid.uuid4()` / generated document numbers are modelled by a fresh-name
  counter `next_uuid` threaded through the state; `datetime.utcnow()` is
  modelled by a `clock` counter.
- A raised `HTTPException` is modelled as `Except.error`; each operation
  returns the database state alongside the result, so an error raised before
  any write leaves the state component equal to the input state.
-/

namespace Server

/-- MovementType enum of server.py (SAP-style movement type codes). -/
inductive MovementType where
  | GOODS_RECEIPT              -- "101"
  | GOODS_ISSUE_CONSUMPTION    -- "201"
  | GOODS_ISSUE_SALES          -- "601"
  | STOCK_TRANSFER             -- "311"
  | RETURN_TO_VENDOR           -- "122"
  | RETURN_FROM_CUSTOMER       -- "161"
deriving DecidableEq

/-- Material master record (fields used by the ledger engine). -/
structure Material where
  id : String
  material_code : String
  material_description : String
  unit_of_measure : String
deriving DecidableEq

/-- Location master record (fields used by the ledger engine). -/
structure Location where
  id : String
  plant_code : String
  storage_location : String
deriving DecidableEq

/-- GoodsReceiptItem line of a goods-receipt document. -/
structure GoodsReceiptItem where
  material_id : String
  material_code : String
  quantity : ℚ
  unit_price : Option ℚ
  total_amount : Option ℚ
deriving DecidableEq

/-- GoodsReceiptCreate request body for POST /goods-receipts. -/
structure GoodsReceiptCreate where
  po_number : Option String
  vendor_code : String
  vendor_name : String
  location_id : String
  posting_date : Nat
  document_date : Nat
  items : List GoodsReceiptItem
  header_text : Option String
deriving DecidableEq

/-- GoodsReceipt stored document. -/
structure GoodsReceipt where
  id : Nat
  document_number : String
  po_number : Option String
  vendor_code : String
  vendor_name : String
  location_id : String
  plant_code : String
  storage_location : String
  posting_date : Nat
  document_date : Nat
  items : List GoodsReceiptItem
  header_text : Option String
deriving DecidableEq

/-- GoodsIssueItem line of a goods-issue document. -/
structure GoodsIssueItem where
  material_id : String
  material_code : String
  quantity : ℚ
  cost_center : Option String
deriving DecidableEq

/-- GoodsIssueCreate request body for POST /goods-issues. -/
structure GoodsIssueCreate where
  movement_type : MovementType
  location_id : String
  posting_date : Nat
  document_date : Nat
  items : List GoodsIssueItem
  header_text : Option String
deriving DecidableEq

/-- GoodsIssue stored document. -/
structure GoodsIssue where
  id : Nat
  document_number : String
  movement_type : MovementType
  location_id : String
  plant_code : String
  storage_location : String
  posting_date : Nat
  document_date : Nat
  items : List GoodsIssueItem
  header_text : Option String
deriving DecidableEq

/-- StockMovement ledger entry (immutable, append-only). -/
structure StockMovement where
  material_id : String
  material_code : String
  location_id : String
  plant_code : String
  storage_location : String
  movement_type : MovementType
  document_number : String
  quantity : ℚ
  unit_of_measure : String
  posting_date : Nat
  reference_document : Option String
deriving DecidableEq

/-- CurrentStock balance row, keyed by (material_id, location_id). -/
structure CurrentStock where
  id : Nat
  material_id : String
  material_code : String
  material_description : String
  location_id : String
  plant_code : String
  storage_location : String
  current_quantity : ℚ
  unit_of_measure : String
  last_updated : Nat
deriving DecidableEq

/-- Database state: the MongoDB collections touched by the ledger engine,
plus the fresh-uuid counter and the clock. -/
structure DB where
  materials : List Material
  locations : List Location
  current_stock : List CurrentStock
  stock_movements : List StockMovement
  goods_receipts : List GoodsReceipt
  goods_issues : List GoodsIssue
  clock : Nat
  next_uuid : Nat
deriving DecidableEq

/-- updateFirst models MongoDB `update_one`: apply `f` to the first element
satisfying `p`, leaving everything else unchanged. -/
def updateFirst (p : α → Bool) (f : α → α) : List α → List α
  | [] => []
  | x :: xs => if p x then f x :: xs else x :: updateFirst p f xs

/-- find_material models `db.materials.find_one({"id": material_id})`. -/
def find_material (materials : List Material) (material_id : String) : Option Material :=
  materials.find? (fun m => m.id == material_id)

/-- find_location models `db.locations.find_one({"id": location_id})`. -/
def find_location (locations : List Location) (location_id : String) : Option Location :=
  locations.find? (fun l => l.id == location_id)

/-- find_stock models
`db.current_stock.find_one({"material_id": ..., "location_id": ...})`. -/
def find_stock (cs : List CurrentStock) (material_id location_id : String) :
    Option CurrentStock :=
  cs.find? (fun s => s.material_id == material_id && s.location_id == location_id)

/-- update_stock mirrors the helper `update_stock` of server.py: re-resolve
the material and location (404 if either is missing), negate the quantity for
the three issue-direction movement types, then either update the first
matching balance row in place or insert a freshly seeded one. -/
def update_stock (db : DB) (material_id location_id : String) (quantity : ℚ)
    (movement_type : MovementType) (unit_of_measure : String) :
    DB × Except String Unit :=
  match find_material db.materials material_id, find_location db.locations location_id with
  | some material, some location =>
    let quantity_change : ℚ :=
      if movement_type = MovementType.GOODS_ISSUE_CONSUMPTION ∨
         movement_type = MovementType.GOODS_ISSUE_SALES ∨
         movement_type = MovementType.RETURN_TO_VENDOR
      then -quantity else quantity
    match find_stock db.current_stock material_id location_id with
    | some stock_record =>
      let new_quantity := stock_record.current_quantity + quantity_change
      ({ db with
           current_stock :=
             updateFirst (fun s => s.id == stock_record.id)
               (fun s => { s with current_quantity := new_quantity,
                                  last_updated := db.clock })
               db.current_stock,
           clock := db.clock + 1 },
       Except.ok ())
    | none =>
      let new_stock : CurrentStock :=
        { id := db.next_uuid,
          material_id := material_id,
          material_code := material.material_code,
          material_description := material.material_description,
          location_id := location_id,
          plant_code := location.plant_code,
          storage_location := location.storage_location,
          current_quantity := quantity_change,
          unit_of_measure := unit_of_measure,
          last_updated := db.clock }
      ({ db with
           current_stock := db.current_stock ++ [new_stock],
           clock := db.clock + 1,
           next_uuid := db.next_uuid + 1 },
       Except.ok ())
  | _, _ => (db, Except.error "Material or Location not found")

/-- gr_record_item models one iteration of the items loop of
`create_goods_receipt`: skip the line when the material does not resolve,
otherwise update the stock and append the StockMovement ledger entry with
the raw (positive) line quantity. -/
def gr_record_item (location : Location) (gr : GoodsReceiptCreate)
    (document_number : String) (db : DB) (item : GoodsReceiptItem) :
    DB × Except String Unit :=
  match find_material db.materials item.material_id with
  | none => (db, Except.ok ())
  | some material =>
    match update_stock db item.material_id gr.location_id item.quantity
        MovementType.GOODS_RECEIPT material.unit_of_measure with
    | (db2, Except.error e) => (db2, Except.error e)
    | (db2, Except.ok _) =>
      let movement : StockMovement :=
        { material_id := item.material_id,
          material_code := item.material_code,
          location_id := gr.location_id,
          plant_code := location.plant_code,
          storage_location := location.storage_location,
          movement_type := MovementType.GOODS_RECEIPT,
          document_number := document_number,
          quantity := item.quantity,
          unit_of_measure := material.unit_of_measure,
          posting_date := gr.posting_date,
          reference_document := gr.po_number }
      ({ db2 with stock_movements := db2.stock_movements ++ [movement] },
       Except.ok ())

/-- gr_items_loop runs the items loop of `create_goods_receipt` sequentially,
stopping at the first raised exception (with all earlier writes kept). -/
def gr_items_loop (location : Location) (gr : GoodsReceiptCreate)
    (document_number : String) :
    DB → List GoodsReceiptItem → DB × Except String Unit
  | db, [] => (db, Except.ok ())
  | db, item :: rest =>
    match gr_record_item location gr document_number db item with
    | (db2, Except.ok _) => gr_items_loop location gr document_number db2 rest
    | (db2, Except.error e) => (db2, Except.error e)

/-- gr_doc is the stored GoodsReceipt document built by `create_goods_receipt`
(the Python local `gr_obj`): the request plus the location's plant/storage
codes and a generated document number. -/
def gr_doc (db : DB) (gr : GoodsReceiptCreate) (location : Location) : GoodsReceipt :=
  { id := db.next_uuid,
    document_number := "GR" ++ toString db.next_uuid,
    po_number := gr.po_number,
    vendor_code := gr.vendor_code,
    vendor_name := gr.vendor_name,
    location_id := gr.location_id,
    plant_code := location.plant_code,
    storage_location := location.storage_location,
    posting_date := gr.posting_date,
    document_date := gr.document_date,
    items := gr.items,
    header_text := gr.header_text }

/-- gr_db1 is the state right after `db.goods_receipts.insert_one` of the
document. -/
def gr_db1 (db : DB) (gr : GoodsReceiptCreate) (location : Location) : DB :=
  { db with goods_receipts := db.goods_receipts ++ [gr_doc db gr location],
            next_uuid := db.next_uuid + 1 }

/-- create_goods_receipt mirrors POST /goods-receipts: resolve the location
(404 aborts with nothing written), store the document, then process each
line item in order. -/
def create_goods_receipt (db : DB) (gr : GoodsReceiptCreate) :
    DB × Except String GoodsReceipt :=
  match find_location db.locations gr.location_id with
  | none => (db, Except.error "Location not found")
  | some location =>
    match gr_items_loop location gr (gr_doc db gr location).document_number
        (gr_db1 db gr location) gr.items with
    | (db2, Except.ok _) => (db2, Except.ok (gr_doc db gr location))
    | (db2, Except.error e) => (db2, Except.error e)

/-- gi_record_item models one iteration of the items loop of
`create_goods_issue`: skip the line when the material does not resolve,
otherwise update the stock (signed per the movement-type direction table)
and append the StockMovement ledger entry with quantity `-item.quantity`
(the source negates unconditionally, with the comment "Negative for
issues"). -/
def gi_record_item (location : Location) (gi : GoodsIssueCreate)
    (document_number : String) (db : DB) (item : GoodsIssueItem) :
    DB × Except String Unit :=
  match find_material db.materials item.material_id with
  | none => (db, Except.ok ())
  | some material =>
    match update_stock db item.material_id gi.location_id item.quantity
        gi.movement_type material.unit_of_measure with
    | (db2, Except.error e) => (db2, Except.error e)
    | (db2, Except.ok _) =>
      let movement : StockMovement :=
        { material_id := item.material_id,
          material_code := item.material_code,
          location_id := gi.location_id,
          plant_code := location.plant_code,
          storage_location := location.storage_location,
          movement_type := gi.movement_type,
          document_number := document_number,
          quantity := -item.quantity,
          unit_of_measure := material.unit_of_measure,
          posting_date := gi.posting_date,
          reference_document := none }
      ({ db2 with stock_movements := db2.stock_movements ++ [movement] },
       Except.ok ())

/-- gi_items_loop runs the items loop of `create_goods_issue` sequentially. -/
def gi_items_loop (location : Location) (gi : GoodsIssueCreate)
    (document_number : String) :
    DB → List GoodsIssueItem → DB × Except String Unit
  | db, [] => (db, Except.ok ())
  | db, item :: rest =>
    match gi_record_item location gi document_number db item with
    | (db2, Except.ok _) => gi_items_loop location gi document_number db2 rest
    | (db2, Except.error e) => (db2, Except.error e)

/-- gi_doc is the stored GoodsIssue document built by `create_goods_issue`
(the Python local `gi_obj`). -/
def gi_doc (db : DB) (gi : GoodsIssueCreate) (location : Location) : GoodsIssue :=
  { id := db.next_uuid,
    document_number := "GI" ++ toString db.next_uuid,
    movement_type := gi.movement_type,
    location_id := gi.location_id,
    plant_code := location.plant_code,
    storage_location := location.storage_location,
    posting_date := gi.posting_date,
    document_date := gi.document_date,
    items := gi.items,
    header_text := gi.header_text }

/-- gi_db1 is the state right after `db.goods_issues.insert_one` of the
document. -/
def gi_db1 (db : DB) (gi : GoodsIssueCreate) (location : Location) : DB :=
  { db with goods_issues := db.goods_issues ++ [gi_doc db gi location],
            next_uuid := db.next_uuid + 1 }

/-- create_goods_issue mirrors POST /goods-issues: resolve the location
(404 aborts with nothing written), store the document, then process each
line item in order. -/
def create_goods_issue (db : DB) (gi : GoodsIssueCreate) :
    DB × Except String GoodsIssue :=
  match find_location db.locations gi.location_id with
  | none => (db, Except.error "Location not found")
  | some location =>
    match gi_items_loop location gi (gi_doc db gi location).document_number
        (gi_db1 db gi location) gi.items with
    | (db2, Except.ok _) => (db2, Except.ok (gi_doc db gi location))
    | (db2, Except.error e) => (db2, Except.error e)

/-- Posting: one document-creation request, receipt or issue. -/
inductive Posting where
  | receipt (gr : GoodsReceiptCreate)
  | issue (gi : GoodsIssueCreate)

/-- apply_posting runs one posting request against the database. -/
def apply_posting (db : DB) : Posting → DB × Except String Unit
  | Posting.receipt gr =>
    match create_goods_receipt db gr with
    | (db2, Except.ok _) => (db2, Except.ok ())
    | (db2, Except.error e) => (db2, Except.error e)
  | Posting.issue gi =>
    match create_goods_issue db gi with
    | (db2, Except.ok _) => (db2, Except.ok ())
    | (db2, Except.error e) => (db2, Except.error e)

/-- run_postings runs a sequence of postings, returning the final state when
every posting succeeded and `none` as soon as one fails. -/
def run_postings (db : DB) : List Posting → Option DB
  | [] => some db
  | p :: rest =>
    match apply_posting db p with
    | (db2, Except.ok _) => run_postings db2 rest
    | (_, Except.error _) => none

/-- balanceOf reads the current balance of a (material, location) pair: the
`current_quantity` of the first matching balance row, or 0 when no row
exists. -/
def balanceOf (cs : List CurrentStock) (material_id location_id : String) : ℚ :=
  match find_stock cs material_id location_id with
  | some s => s.current_quantity
  | none => 0

/-- ledgerSum adds up the `quantity` fields of all ledger entries recorded
for a (material, location) pair. -/
def ledgerSum (sms : List StockMovement) (material_id location_id : String) : ℚ :=
  ((sms.filter
      (fun mv => mv.material_id == material_id && mv.location_id == location_id)).map
    (fun mv => mv.quantity)).sum

/-- direction_increase is the spec's movement-type direction table (§3/§4.1):
receipt, stock transfer and return-from-customer increase stock; the three
issue movement types decrease it. -/
def direction_increase : MovementType → Bool
  | MovementType.GOODS_RECEIPT => true
  | MovementType.STOCK_TRANSFER => true
  | MovementType.RETURN_FROM_CUSTOMER => true
  | MovementType.GOODS_ISSUE_CONSUMPTION => false
  | MovementType.GOODS_ISSUE_SALES => false
  | MovementType.RETURN_TO_VENDOR => false

/-- isOkE tests whether an Except value is a success. -/
def isOkE : Except ε α → Bool
  | Except.ok _ => true
  | Except.error _ => false

/-- signedDelta is the spec's sign derivation (§4.1): `+rawQuantity` for an
increase-direction movement type, `-rawQuantity` for a decrease-direction
one. -/
def signedDelta (mt : MovementType) (q : ℚ) : ℚ :=
  if direction_increase mt then q else -q

/-- stockPred is the balance-row key predicate used by the Mongo query on
`current_stock`. -/
def stockPred (material_id location_id : String) : CurrentStock → Bool :=
  fun s => s.material_id == material_id && s.location_id == location_id

/-- StockLedgerInv bundles the ledger/balance coherence invariant with the
bookkeeping facts (unique balance-row ids, ids below the fresh-uuid counter)
that make balance-row updates well defined. -/
def StockLedgerInv (db : DB) : Prop :=
  (∀ mid lid, balanceOf db.current_stock mid lid = ledgerSum db.stock_movements mid lid) ∧
  (db.current_stock.map (fun s => s.id)).Nodup ∧
  (∀ s ∈ db.current_stock, s.id < db.next_uuid)

/-- posting_decrease_only holds for receipts, and for goods-issue requests
whose movement type has decrease direction (the three types the issue
endpoint's unconditional ledger negation agrees with). -/
def posting_decrease_only : Posting → Prop
  | Posting.receipt _ => True
  | Posting.issue gi =>
      gi.movement_type = MovementType.GOODS_ISSUE_CONSUMPTION ∨
      gi.movement_type = MovementType.GOODS_ISSUE_SALES ∨
      gi.movement_type = MovementType.RETURN_TO_VENDOR

/-- demoMaterial is a concrete material master record used by the concrete
evaluations below. -/
def demoMaterial : Material :=
  { id := "M1", material_code := "MAT1", material_description := "Demo material",
    unit_of_measure := "PC" }

/-- demoLocation is a concrete location master record used by the concrete
evaluations below. -/
def demoLocation : Location :=
  { id := "L1", plant_code := "P1", storage_location := "S1" }

/-- demoDB is an initial state: one material, one location, empty ledger,
no balance rows. -/
def demoDB : DB :=
  { materials := [demoMaterial], locations := [demoLocation],
    current_stock := [], stock_movements := [], goods_receipts := [],
    goods_issues := [], clock := 0, next_uuid := 0 }

/-- demoReceipt is a one-line goods receipt of 100 units of M1 at L1. -/
def demoReceipt : GoodsReceiptCreate :=
  { po_number := some "PO001", vendor_code := "V001", vendor_name := "Vendor",
    location_id := "L1", posting_date := 0, document_date := 0,
    items := [{ material_id := "M1", material_code := "MAT1", quantity := 100,
                unit_price := none, total_amount := none }],
    header_text := none }

/-- demoConsumptionIssue is a one-line goods issue (201, consumption) of 30
units of M1 at L1. -/
def demoConsumptionIssue : GoodsIssueCreate :=
  { movement_type := MovementType.GOODS_ISSUE_CONSUMPTION, location_id := "L1",
    posting_date := 0, document_date := 0,
    items := [{ material_id := "M1", material_code := "MAT1", quantity := 30,
                cost_center := some "CC001" }],
    header_text := none }

/-- demoTransferIssue is a one-line goods issue posted with movement type 311
(stock transfer, an increase-direction type) of 5 units of M1 at L1. -/
def demoTransferIssue : GoodsIssueCreate :=
  { movement_type := MovementType.STOCK_TRANSFER, location_id := "L1",
    posting_date := 0, document_date := 0,
    items := [{ material_id := "M1", material_code := "MAT1", quantity := 5,
                cost_center := none }],
    header_text := none }

/-- demoReturnIssue is a one-line goods issue posted with movement type 161
(return from customer, an increase-direction type) of 5 units of M1 at L1. -/
def demoReturnIssue : GoodsIssueCreate :=
  { movement_type := MovementType.RETURN_FROM_CUSTOMER, location_id := "L1",
    posting_date := 0, document_date := 0,
    items := [{ material_id := "M1", material_code := "MAT1", quantity := 5,
                cost_center := none }],
    header_text := none }

/-- demoMovementGR is the ledger entry written when `demoReceipt` is posted
against `demoDB`. -/
def demoMovementGR : StockMovement :=
  { material_id := "M1", material_code := "MAT1", location_id := "L1",
    plant_code := "P1", storage_location := "S1",
    movement_type := MovementType.GOODS_RECEIPT, document_number := "GR0",
    quantity := 100, unit_of_measure := "PC", posting_date := 0,
    reference_document := some "PO001" }

/-- negativeReceipt is a goods receipt whose single line carries the
non-positive quantity -5. -/
def negativeReceipt : GoodsReceiptCreate :=
  { po_number := none, vendor_code := "V001", vendor_name := "Vendor",
    location_id := "L1", posting_date := 0, document_date := 0,
    items := [{ material_id := "M1", material_code := "MAT1", quantity := -5,
                unit_price := none, total_amount := none }],
    header_text := none }

/-- demoStock70 is an existing balance row of 70 units of M1 at L1. -/
def demoStock70 : CurrentStock :=
  { id := 7, material_id := "M1", material_code := "MAT1",
    material_description := "Demo material", location_id := "L1",
    plant_code := "P1", storage_location := "S1", current_quantity := 70,
    unit_of_measure := "PC", last_updated := 0 }

/-- demoStockDB is `demoDB` with one existing balance row of 70 units. -/
def demoStockDB : DB :=
  { demoDB with current_stock := [demoStock70], next_uuid := 8 }

/-- demoOtherRow is a balance row for an unrelated pair (M9, L9). -/
def demoOtherRow : CurrentStock :=
  { id := 5, material_id := "M9", material_code := "MAT9",
    material_description := "Other material", location_id := "L9",
    plant_code := "P9", storage_location := "S9", current_quantity := 3,
    unit_of_measure := "KG", last_updated := 0 }

/-- demoTwoRowDB holds two balance rows, one for (M9, L9) and one for
(M1, L1). -/
def demoTwoRowDB : DB :=
  { demoDB with current_stock := [demoOtherRow, demoStock70], next_uuid := 8 }

/-- demoBadLocReceipt is a goods receipt naming a location id that does not
resolve. -/
def demoBadLocReceipt : GoodsReceiptCreate :=
  { po_number := none, vendor_code := "V001", vendor_name := "Vendor",
    location_id := "L404", posting_date := 0, document_date := 0,
    items := [{ material_id := "M1", material_code := "MAT1", quantity := 10,
                unit_price := none, total_amount := none }],
    header_text := none }

/-- demoBadLocIssue is a goods issue naming a location id that does not
resolve. -/
def demoBadLocIssue : GoodsIssueCreate :=
  { movement_type := MovementType.GOODS_ISSUE_CONSUMPTION, location_id := "L404",
    posting_date := 0, document_date := 0,
    items := [{ material_id := "M1", material_code := "MAT1", quantity := 10,
                cost_center := none }],
    header_text := none }

/-- demoEmptyReceipt is a goods receipt with an empty items list. -/
def demoEmptyReceipt : GoodsReceiptCreate :=
  { po_number := none, vendor_code := "V001", vendor_name := "Vendor",
    location_id := "L1", posting_date := 0, document_date := 0,
    items := [], header_text := none }

/-- demoEmptyIssue is a goods issue with an empty items list. -/
def demoEmptyIssue : GoodsIssueCreate :=
  { movement_type := MovementType.GOODS_ISSUE_CONSUMPTION, location_id := "L1",
    posting_date := 0, document_date := 0, items := [], header_text := none }

/-- demoBadMaterialIssue is a two-line goods issue: the first line's material
id does not resolve, the second line is a valid issue of 8. -/
def demoBadMaterialIssue : GoodsIssueCreate :=
  { movement_type := MovementType.GOODS_ISSUE_CONSUMPTION, location_id := "L1",
    posting_date := 0, document_date := 0,
    items := [{ material_id := "M404", material_code := "MAT404", quantity := 3,
                cost_center := none },
              { material_id := "M1", material_code := "MAT1", quantity := 8,
                cost_center := none }],
    header_text := none }

/-- demoBadMaterialReceipt is a two-line goods receipt: the first line's
material id does not resolve, the second line is a valid receipt of 40. -/
def demoBadMaterialReceipt : GoodsReceiptCreate :=
  { po_number := none, vendor_code := "V001", vendor_name := "Vendor",
    location_id := "L1", posting_date := 0, document_date := 0,
    items := [{ material_id := "M404", material_code := "MAT404", quantity := 10,
                unit_price := none, total_amount := none },
              { material_id := "M1", material_code := "MAT1", quantity := 40,
                unit_price := none, total_amount := none }],
    header_text := none }

/-! Helper lemmas about `updateFirst` and `find?`. -/

/-- updateFirst_append_of_none pushes `updateFirst` past a prefix with no
match. -/
theorem updateFirst_append_of_none (p : α → Bool) (f : α → α) (l1 l2 : List α)
    (h : ∀ x ∈ l1, p x = false) :
    updateFirst p f (l1 ++ l2) = l1 ++ updateFirst p f l2 := by
  induction l1 with
  | nil => rfl
  | cons a l ih =>
    have ha : p a = false := h a (by simp)
    simp [updateFirst, ha]
    exact ih (fun x hx => h x (by simp [hx]))

/-- updateFirst_cons_pos evaluates `updateFirst` at a matching head. -/
theorem updateFirst_cons_pos (p : α → Bool) (f : α → α) (a : α) (l : List α)
    (h : p a = true) : updateFirst p f (a :: l) = f a :: l := by
  simp [updateFirst, h]

/-- find_stock_decomp breaks the stock list around the row found for a
(material, location) pair. -/
theorem find_stock_decomp (cs : List CurrentStock) (mid lid : String)
    (r : CurrentStock) (h : find_stock cs mid lid = some r) :
    r.material_id = mid ∧ r.location_id = lid ∧
    ∃ l1 l2, cs = l1 ++ r :: l2 ∧ ∀ x ∈ l1, stockPred mid lid x = false := by
  have h2 := List.find?_eq_some.mp h
  obtain ⟨hp, l1, l2, heq, hall⟩ := h2
  have hpm : r.material_id = mid ∧ r.location_id = lid := by
    have := hp
    simp only [Bool.and_eq_true, beq_iff_eq] at this
    exact this
  exact ⟨hpm.1, hpm.2, l1, l2, heq, fun x hx => by
    have hthis := hall x hx
    simp at hthis
    simp [stockPred]
    tauto⟩

/-- quantity_change_eq_signedDelta identifies the inline sign adjustment of
`update_stock` with the spec's direction table. -/
theorem quantity_change_eq_signedDelta (mt : MovementType) (q : ℚ) :
    (if mt = MovementType.GOODS_ISSUE_CONSUMPTION ∨
        mt = MovementType.GOODS_ISSUE_SALES ∨
        mt = MovementType.RETURN_TO_VENDOR then -q else q) = signedDelta mt q := by
  cases mt <;> simp [signedDelta, direction_increase]

/-- update_stock_existing characterises `update_stock` when a balance row for
the pair already exists (and balance-row ids are unique): exactly that row is
replaced in place, with only its quantity and timestamp changed. -/
theorem update_stock_existing (db : DB) (mid lid : String) (q : ℚ)
    (mt : MovementType) (uom : String) (m : Material) (loc : Location)
    (r : CurrentStock)
    (hm : find_material db.materials mid = some m)
    (hl : find_location db.locations lid = some loc)
    (hr : find_stock db.current_stock mid lid = some r)
    (hnd : (db.current_stock.map (fun s => s.id)).Nodup) :
    ∃ l1 l2, db.current_stock = l1 ++ r :: l2 ∧
      (∀ x ∈ l1, stockPred mid lid x = false) ∧
      update_stock db mid lid q mt uom =
        ({ db with
             current_stock :=
               l1 ++ { r with current_quantity := r.current_quantity + signedDelta mt q,
                              last_updated := db.clock } :: l2,
             clock := db.clock + 1 }, Except.ok ()) := by
  obtain ⟨hm1, hl1, l1, l2, heq, hall⟩ := find_stock_decomp _ _ _ _ hr
  refine ⟨l1, l2, heq, hall, ?_⟩
  have hid : r.id ∉ l1.map (fun s => s.id) := by
    rw [heq] at hnd
    simp only [List.map_append, List.map_cons] at hnd
    have h2 := List.nodup_cons.mp (List.nodup_middle.mp hnd)
    intro hmem
    exact h2.1 (List.mem_append_left _ hmem)
  have hupd :
      updateFirst (fun s => s.id == r.id)
        (fun s => { s with current_quantity := r.current_quantity + signedDelta mt q,
                           last_updated := db.clock }) db.current_stock =
      l1 ++ { r with current_quantity := r.current_quantity + signedDelta mt q,
                     last_updated := db.clock } :: l2 := by
    rw [heq]
    rw [updateFirst_append_of_none _ _ l1 _ (fun x hx => by
      have hxid : x.id ≠ r.id := by
        intro hcontra
        exact hid (by rw [← hcontra]; exact List.mem_map_of_mem _ hx)
      simp [hxid])]
    rw [updateFirst_cons_pos _ _ _ _ (by simp)]
  simp only [update_stock, hm, hl, hr]
  rw [quantity_change_eq_signedDelta]
  rw [hupd]

/-- update_stock_new characterises `update_stock` when no balance row exists
for the pair: one freshly seeded row is appended, denormalizing the material
description and the location's plant/storage codes. -/
theorem update_stock_new (db : DB) (mid lid : String) (q : ℚ)
    (mt : MovementType) (uom : String) (m : Material) (loc : Location)
    (hm : find_material db.materials mid = some m)
    (hl : find_location db.locations lid = some loc)
    (hr : find_stock db.current_stock mid lid = none) :
    update_stock db mid lid q mt uom =
      ({ db with
           current_stock := db.current_stock ++
             [{ id := db.next_uuid,
                material_id := mid,
                material_code := m.material_code,
                material_description := m.material_description,
                location_id := lid,
                plant_code := loc.plant_code,
                storage_location := loc.storage_location,
                current_quantity := signedDelta mt q,
                unit_of_measure := uom,
                last_updated := db.clock }],
           clock := db.clock + 1,
           next_uuid := db.next_uuid + 1 }, Except.ok ()) := by
  simp only [update_stock, hm, hl, hr]
  rw [quantity_change_eq_signedDelta]

/-- update_stock_not_found characterises `update_stock` when the material or
the location does not resolve: an error with the state unchanged. -/
theorem update_stock_not_found (db : DB) (mid lid : String) (q : ℚ)
    (mt : MovementType) (uom : String)
    (h : find_material db.materials mid = none ∨ find_location db.locations lid = none) :
    update_stock db mid lid q mt uom =
      (db, Except.error "Material or Location not found") := by
  rcases h with h | h
  · simp only [update_stock, h]
  · cases hm : find_material db.materials mid <;> simp only [update_stock, hm, h]

/-! Bookkeeping lemmas for `balanceOf` and `ledgerSum`. -/

/-- find_stock_eq names the key predicate of `find_stock`. -/
theorem find_stock_eq (cs : List CurrentStock) (mid lid : String) :
    find_stock cs mid lid = cs.find? (stockPred mid lid) := rfl

/-- stockPred_false_of_ne: a row keyed at (mid, lid) does not match a
different pair. -/
theorem stockPred_false_of_ne (mid lid mid2 lid2 : String) (s : CurrentStock)
    (hm : s.material_id = mid) (hl : s.location_id = lid)
    (hne : ¬(mid2 = mid ∧ lid2 = lid)) : stockPred mid2 lid2 s = false := by
  simp [stockPred, hm, hl]
  intro h1 h2
  exact hne ⟨h1.symm, h2.symm⟩

/-- balanceOf_target evaluates the balance at the pair of a row that is the
first match. -/
theorem balanceOf_target (l1 l2 : List CurrentStock) (r2 : CurrentStock)
    (mid lid : String)
    (hall : ∀ x ∈ l1, stockPred mid lid x = false)
    (hm2 : r2.material_id = mid) (hl2 : r2.location_id = lid) :
    balanceOf (l1 ++ r2 :: l2) mid lid = r2.current_quantity := by
  have h1 : l1.find? (stockPred mid lid) = none :=
    List.find?_eq_none.mpr (fun x hx => by simp [hall x hx])
  have h2 : stockPred mid lid r2 = true := by simp [stockPred, hm2, hl2]
  unfold balanceOf
  rw [find_stock_eq, List.find?_append, h1, List.find?_cons_of_pos _ h2]
  rfl

/-- balanceOf_other: replacing the middle row by one with the same key does
not change the balance read for any other pair. -/
theorem balanceOf_other (l1 l2 : List CurrentStock) (r r2 : CurrentStock)
    (mid2 lid2 : String)
    (hr : stockPred mid2 lid2 r = false) (hr2 : stockPred mid2 lid2 r2 = false) :
    balanceOf (l1 ++ r2 :: l2) mid2 lid2 = balanceOf (l1 ++ r :: l2) mid2 lid2 := by
  unfold balanceOf
  rw [find_stock_eq, find_stock_eq, List.find?_append, List.find?_append,
    List.find?_cons_of_neg _ (by simp [hr2]), List.find?_cons_of_neg _ (by simp [hr])]

/-- balanceOf_append_notmatch: appending a row keyed at a different pair does
not change the balance read. -/
theorem balanceOf_append_notmatch (cs : List CurrentStock) (s : CurrentStock)
    (mid2 lid2 : String) (hs : stockPred mid2 lid2 s = false) :
    balanceOf (cs ++ [s]) mid2 lid2 = balanceOf cs mid2 lid2 := by
  unfold balanceOf
  rw [find_stock_eq, find_stock_eq, List.find?_append,
    List.find?_cons_of_neg _ (by simp [hs])]
  simp

/-- balanceOf_append_match: appending a row for a pair with no previous row
makes its quantity the balance read of that pair. -/
theorem balanceOf_append_match (cs : List CurrentStock) (s : CurrentStock)
    (mid lid : String) (hnone : find_stock cs mid lid = none)
    (hm : s.material_id = mid) (hl : s.location_id = lid) :
    balanceOf (cs ++ [s]) mid lid = s.current_quantity := by
  have h2 : stockPred mid lid s = true := by simp [stockPred, hm, hl]
  unfold balanceOf
  rw [find_stock_eq, List.find?_append, ← find_stock_eq, hnone,
    List.find?_cons_of_pos _ h2]
  rfl

/-- ledgerSum_append_one: appending one ledger entry adds its quantity to the
sum of its own pair and nothing to any other pair. -/
theorem ledgerSum_append_one (sms : List StockMovement) (mv : StockMovement)
    (mid lid : String) :
    ledgerSum (sms ++ [mv]) mid lid =
      ledgerSum sms mid lid +
        (if mv.material_id = mid ∧ mv.location_id = lid then mv.quantity else 0) := by
  unfold ledgerSum
  rw [List.filter_append, List.map_append, List.sum_append]
  by_cases h : mv.material_id = mid ∧ mv.location_id = lid
  · have hb : (mv.material_id == mid && mv.location_id == lid) = true := by
      simp [h.1, h.2]
    simp [List.filter, hb, h]
  · have hb : (mv.material_id == mid && mv.location_id == lid) = false := by
      rcases not_and_or.mp h with h1 | h1 <;> simp [h1]
    simp [List.filter, hb, h]

/-! Invariant preservation through one ledger write. -/

/-- inv_update_and_append: one `update_stock` call followed by appending the
matching ledger entry preserves the stock/ledger invariant, provided the
entry's quantity is the signed delta actually applied to the balance. -/
theorem inv_update_and_append (db : DB) (mid lid : String) (q : ℚ)
    (mt : MovementType) (uom : String) (m : Material) (loc : Location)
    (mv : StockMovement)
    (hm : find_material db.materials mid = some m)
    (hl : find_location db.locations lid = some loc)
    (hmvm : mv.material_id = mid) (hmvl : mv.location_id = lid)
    (hmvq : mv.quantity = signedDelta mt q)
    (hinv : StockLedgerInv db) :
    StockLedgerInv
      { (update_stock db mid lid q mt uom).fst with
        stock_movements :=
          (update_stock db mid lid q mt uom).fst.stock_movements ++ [mv] } := by
  obtain ⟨hbal, hnd, hbound⟩ := hinv
  cases hr : find_stock db.current_stock mid lid with
  | some r =>
    obtain ⟨hrm, hrl, -⟩ := find_stock_decomp _ _ _ _ hr
    obtain ⟨l1, l2, heq, hall, hconc⟩ :=
      update_stock_existing db mid lid q mt uom m loc r hm hl hr hnd
    rw [hconc]
    refine ⟨?_, ?_, ?_⟩
    · intro mid2 lid2
      rw [ledgerSum_append_one]
      by_cases hpair : mid2 = mid ∧ lid2 = lid
      · obtain ⟨h1, h2⟩ := hpair
        subst h1; subst h2
        have hb : balanceOf (l1 ++
            { r with current_quantity := r.current_quantity + signedDelta mt q,
                     last_updated := db.clock } :: l2) mid2 lid2 =
            r.current_quantity + signedDelta mt q :=
          balanceOf_target l1 l2 _ mid2 lid2 hall hrm hrl
        have hold : balanceOf db.current_stock mid2 lid2 = r.current_quantity := by
          unfold balanceOf
          rw [hr]
        have hif : mv.material_id = mid2 ∧ mv.location_id = lid2 := ⟨hmvm, hmvl⟩
        simp only [hb, if_pos hif, hmvq]
        rw [← hbal mid2 lid2, hold]
      · have hb : balanceOf (l1 ++
            { r with current_quantity := r.current_quantity + signedDelta mt q,
                     last_updated := db.clock } :: l2) mid2 lid2 =
            balanceOf (l1 ++ r :: l2) mid2 lid2 :=
          balanceOf_other l1 l2 r _ mid2 lid2
            (stockPred_false_of_ne mid lid mid2 lid2 r hrm hrl hpair)
            (stockPred_false_of_ne mid lid mid2 lid2 _ hrm hrl hpair)
        have hif : ¬(mv.material_id = mid2 ∧ mv.location_id = lid2) := by
          rw [hmvm, hmvl]
          intro hcontra
          exact hpair ⟨hcontra.1.symm, hcontra.2.symm⟩
        simp only [hb, if_neg hif, add_zero, ← heq]
        exact hbal mid2 lid2
    · have : (l1 ++
          { r with current_quantity := r.current_quantity + signedDelta mt q,
                   last_updated := db.clock } :: l2).map (fun s => s.id) =
          db.current_stock.map (fun s => s.id) := by
        rw [heq]
        simp
      rw [this]
      exact hnd
    · intro s hs
      rw [heq] at hbound
      simp only [List.mem_append, List.mem_cons] at hs
      rcases hs with hs | hs | hs
      · exact hbound s (by simp [hs])
      · subst hs
        exact hbound r (by simp)
      · exact hbound s (by simp [hs])
  | none =>
    rw [update_stock_new db mid lid q mt uom m loc hm hl hr]
    refine ⟨?_, ?_, ?_⟩
    · intro mid2 lid2
      rw [ledgerSum_append_one]
      by_cases hpair : mid2 = mid ∧ lid2 = lid
      · obtain ⟨h1, h2⟩ := hpair
        subst h1; subst h2
        have hb := balanceOf_append_match db.current_stock
          { id := db.next_uuid, material_id := mid2,
            material_code := m.material_code,
            material_description := m.material_description,
            location_id := lid2, plant_code := loc.plant_code,
            storage_location := loc.storage_location,
            current_quantity := signedDelta mt q, unit_of_measure := uom,
            last_updated := db.clock } mid2 lid2 hr rfl rfl
        have hold : balanceOf db.current_stock mid2 lid2 = 0 := by
          unfold balanceOf
          rw [hr]
        have hif : mv.material_id = mid2 ∧ mv.location_id = lid2 := ⟨hmvm, hmvl⟩
        simp only [hb, if_pos hif, hmvq]
        rw [← hbal mid2 lid2, hold, zero_add]
      · have hb := balanceOf_append_notmatch db.current_stock
          { id := db.next_uuid, material_id := mid,
            material_code := m.material_code,
            material_description := m.material_description,
            location_id := lid, plant_code := loc.plant_code,
            storage_location := loc.storage_location,
            current_quantity := signedDelta mt q, unit_of_measure := uom,
            last_updated := db.clock } mid2 lid2
          (stockPred_false_of_ne mid lid mid2 lid2 _ rfl rfl hpair)
        have hif : ¬(mv.material_id = mid2 ∧ mv.location_id = lid2) := by
          rw [hmvm, hmvl]
          intro hcontra
          exact hpair ⟨hcontra.1.symm, hcontra.2.symm⟩
        simp only [hb, if_neg hif, add_zero]
        exact hbal mid2 lid2
    · rw [List.map_append]
      simp only [List.map_cons, List.map_nil]
      rw [List.nodup_append]
      refine ⟨hnd, List.nodup_singleton _, ?_⟩
      intro a ha hb
      simp only [List.mem_singleton] at hb
      subst hb
      obtain ⟨s, hs, hsid⟩ := List.mem_map.mp ha
      exact Nat.lt_irrefl _ (hsid ▸ hbound s hs)
    · intro s hs
      simp only [List.mem_append, List.mem_singleton] at hs
      rcases hs with hs | hs
      · exact Nat.lt_succ_of_lt (hbound s hs)
      · subst hs
        exact Nat.lt_succ_self _

/-! Frame and success lemmas for `update_stock`. -/

/-- update_stock_frame: `update_stock` touches only the balance table, the
clock and the uuid counter; the master-data collections and the ledger are
left unchanged. -/
theorem update_stock_frame (db : DB) (mid lid : String) (q : ℚ)
    (mt : MovementType) (uom : String) :
    (update_stock db mid lid q mt uom).fst.materials = db.materials ∧
    (update_stock db mid lid q mt uom).fst.locations = db.locations ∧
    (update_stock db mid lid q mt uom).fst.stock_movements = db.stock_movements := by
  unfold update_stock
  cases hm : find_material db.materials mid with
  | none => exact ⟨rfl, rfl, rfl⟩
  | some m =>
    cases hl : find_location db.locations lid with
    | none => exact ⟨rfl, rfl, rfl⟩
    | some loc =>
      cases hr : find_stock db.current_stock mid lid with
      | some r => exact ⟨rfl, rfl, rfl⟩
      | none => exact ⟨rfl, rfl, rfl⟩

/-- update_stock_ok: `update_stock` succeeds whenever the material and the
location resolve. -/
theorem update_stock_ok (db : DB) (mid lid : String) (q : ℚ)
    (mt : MovementType) (uom : String) (m : Material) (loc : Location)
    (hm : find_material db.materials mid = some m)
    (hl : find_location db.locations lid = some loc) :
    (update_stock db mid lid q mt uom).snd = Except.ok () := by
  unfold update_stock
  rw [hm, hl]
  cases hr : find_stock db.current_stock mid lid with
  | some r => rfl
  | none => rfl

/-- update_stock_balance: `update_stock` adds the signed delta to the balance
of its own pair and leaves every other pair's balance unchanged. -/
theorem update_stock_balance (db : DB) (mid lid : String) (q : ℚ)
    (mt : MovementType) (uom : String) (m : Material) (loc : Location)
    (hm : find_material db.materials mid = some m)
    (hl : find_location db.locations lid = some loc)
    (hnd : (db.current_stock.map (fun s => s.id)).Nodup) :
    balanceOf (update_stock db mid lid q mt uom).fst.current_stock mid lid =
      balanceOf db.current_stock mid lid + signedDelta mt q ∧
    ∀ mid2 lid2, ¬(mid2 = mid ∧ lid2 = lid) →
      balanceOf (update_stock db mid lid q mt uom).fst.current_stock mid2 lid2 =
        balanceOf db.current_stock mid2 lid2 := by
  cases hr : find_stock db.current_stock mid lid with
  | some r =>
    obtain ⟨hrm, hrl, -⟩ := find_stock_decomp _ _ _ _ hr
    obtain ⟨l1, l2, heq, hall, hconc⟩ :=
      update_stock_existing db mid lid q mt uom m loc r hm hl hr hnd
    rw [hconc]
    have hold : balanceOf db.current_stock mid lid = r.current_quantity := by
      unfold balanceOf
      rw [hr]
    constructor
    · have hb := balanceOf_target l1 l2
        { r with current_quantity := r.current_quantity + signedDelta mt q,
                 last_updated := db.clock } mid lid hall hrm hrl
      rw [hold]
      exact hb
    · intro mid2 lid2 hne
      have hb := balanceOf_other l1 l2 r
        { r with current_quantity := r.current_quantity + signedDelta mt q,
                 last_updated := db.clock } mid2 lid2
        (stockPred_false_of_ne mid lid mid2 lid2 r hrm hrl hne)
        (stockPred_false_of_ne mid lid mid2 lid2 _ hrm hrl hne)
      rw [heq]
      exact hb
  | none =>
    rw [update_stock_new db mid lid q mt uom m loc hm hl hr]
    have hold : balanceOf db.current_stock mid lid = 0 := by
      unfold balanceOf
      rw [hr]
    constructor
    · have hb := balanceOf_append_match db.current_stock
        { id := db.next_uuid, material_id := mid,
          material_code := m.material_code,
          material_description := m.material_description,
          location_id := lid, plant_code := loc.plant_code,
          storage_location := loc.storage_location,
          current_quantity := signedDelta mt q, unit_of_measure := uom,
          last_updated := db.clock } mid lid hr rfl rfl
      rw [hold, zero_add]
      exact hb
    · intro mid2 lid2 hne
      exact balanceOf_append_notmatch db.current_stock
        { id := db.next_uuid, material_id := mid,
          material_code := m.material_code,
          material_description := m.material_description,
          location_id := lid, plant_code := loc.plant_code,
          storage_location := loc.storage_location,
          current_quantity := signedDelta mt q, unit_of_measure := uom,
          last_updated := db.clock } mid2 lid2
        (stockPred_false_of_ne mid lid mid2 lid2 _ rfl rfl hne)

/-- gr_record_item_found characterises one goods-receipt line whose material
resolves: the stock is updated and the StockMovement entry appended with the
raw line quantity. -/
theorem gr_record_item_found (loc : Location) (gr : GoodsReceiptCreate) (dn : String)
    (db : DB) (item : GoodsReceiptItem) (m : Material) (loc2 : Location)
    (hm : find_material db.materials item.material_id = some m)
    (hl : find_location db.locations gr.location_id = some loc2) :
    gr_record_item loc gr dn db item =
      ({ (update_stock db item.material_id gr.location_id item.quantity
            MovementType.GOODS_RECEIPT m.unit_of_measure).fst with
         stock_movements :=
           (update_stock db item.material_id gr.location_id item.quantity
              MovementType.GOODS_RECEIPT m.unit_of_measure).fst.stock_movements ++
             [{ material_id := item.material_id,
                material_code := item.material_code,
                location_id := gr.location_id,
                plant_code := loc.plant_code,
                storage_location := loc.storage_location,
                movement_type := MovementType.GOODS_RECEIPT,
                document_number := dn,
                quantity := item.quantity,
                unit_of_measure := m.unit_of_measure,
                posting_date := gr.posting_date,
                reference_document := gr.po_number }] },
       Except.ok ()) := by
  unfold gr_record_item
  simp only [hm]
  rcases hus : update_stock db item.material_id gr.location_id item.quantity
      MovementType.GOODS_RECEIPT m.unit_of_measure with ⟨db3, res⟩
  have hok := update_stock_ok db item.material_id gr.location_id item.quantity
    MovementType.GOODS_RECEIPT m.unit_of_measure m loc2 hm hl
  rw [hus] at hok
  cases res with
  | error e => simp at hok
  | ok v => rfl

/-- gi_record_item_found characterises one goods-issue line whose material
resolves: the stock is updated per the direction table, while the entry is
appended with the negated raw quantity. -/
theorem gi_record_item_found (loc : Location) (gi : GoodsIssueCreate) (dn : String)
    (db : DB) (item : GoodsIssueItem) (m : Material) (loc2 : Location)
    (hm : find_material db.materials item.material_id = some m)
    (hl : find_location db.locations gi.location_id = some loc2) :
    gi_record_item loc gi dn db item =
      ({ (update_stock db item.material_id gi.location_id item.quantity
            gi.movement_type m.unit_of_measure).fst with
         stock_movements :=
           (update_stock db item.material_id gi.location_id item.quantity
              gi.movement_type m.unit_of_measure).fst.stock_movements ++
             [{ material_id := item.material_id,
                material_code := item.material_code,
                location_id := gi.location_id,
                plant_code := loc.plant_code,
                storage_location := loc.storage_location,
                movement_type := gi.movement_type,
                document_number := dn,
                quantity := -item.quantity,
                unit_of_measure := m.unit_of_measure,
                posting_date := gi.posting_date,
                reference_document := none }] },
       Except.ok ()) := by
  unfold gi_record_item
  simp only [hm]
  rcases hus : update_stock db item.material_id gi.location_id item.quantity
      gi.movement_type m.unit_of_measure with ⟨db3, res⟩
  have hok := update_stock_ok db item.material_id gi.location_id item.quantity
    gi.movement_type m.unit_of_measure m loc2 hm hl
  rw [hus] at hok
  cases res with
  | error e => simp at hok
  | ok v => rfl

/-- gr_record_item_frame: processing one goods-receipt line never changes the
master-data collections. -/
theorem gr_record_item_frame (loc : Location) (gr : GoodsReceiptCreate) (dn : String)
    (db : DB) (item : GoodsReceiptItem) :
    (gr_record_item loc gr dn db item).fst.materials = db.materials ∧
    (gr_record_item loc gr dn db item).fst.locations = db.locations := by
  unfold gr_record_item
  cases hm : find_material db.materials item.material_id with
  | none => exact ⟨rfl, rfl⟩
  | some m =>
    simp only [hm]
    rcases hus : update_stock db item.material_id gr.location_id item.quantity
        MovementType.GOODS_RECEIPT m.unit_of_measure with ⟨db3, res⟩
    have hframe := update_stock_frame db item.material_id gr.location_id item.quantity
      MovementType.GOODS_RECEIPT m.unit_of_measure
    rw [hus] at hframe
    cases res with
    | error e => exact ⟨hframe.1, hframe.2.1⟩
    | ok v => exact ⟨hframe.1, hframe.2.1⟩

/-- gi_record_item_frame: processing one goods-issue line never changes the
master-data collections. -/
theorem gi_record_item_frame (loc : Location) (gi : GoodsIssueCreate) (dn : String)
    (db : DB) (item : GoodsIssueItem) :
    (gi_record_item loc gi dn db item).fst.materials = db.materials ∧
    (gi_record_item loc gi dn db item).fst.locations = db.locations := by
  unfold gi_record_item
  cases hm : find_material db.materials item.material_id with
  | none => exact ⟨rfl, rfl⟩
  | some m =>
    simp only [hm]
    rcases hus : update_stock db item.material_id gi.location_id item.quantity
        gi.movement_type m.unit_of_measure with ⟨db3, res⟩
    have hframe := update_stock_frame db item.material_id gi.location_id item.quantity
      gi.movement_type m.unit_of_measure
    rw [hus] at hframe
    cases res with
    | error e => exact ⟨hframe.1, hframe.2.1⟩
    | ok v => exact ⟨hframe.1, hframe.2.1⟩

/-! Invariant preservation through whole postings. -/

/-- gr_record_item_inv: one successfully processed goods-receipt line
preserves the stock/ledger invariant. -/
theorem gr_record_item_inv (loc : Location) (gr : GoodsReceiptCreate) (dn : String)
    (db db2 : DB) (item : GoodsReceiptItem) (u : Unit)
    (h : gr_record_item loc gr dn db item = (db2, Except.ok u))
    (hinv : StockLedgerInv db) : StockLedgerInv db2 := by
  unfold gr_record_item at h
  cases hm : find_material db.materials item.material_id with
  | none =>
    simp only [hm] at h
    injection h with h1 h2
    subst h1
    exact hinv
  | some material =>
    simp only [hm] at h
    cases hl : find_location db.locations gr.location_id with
    | none =>
      rw [update_stock_not_found db _ _ _ _ _ (Or.inr hl)] at h
      simp at h
    | some loc2 =>
      rcases hus : update_stock db item.material_id gr.location_id item.quantity
          MovementType.GOODS_RECEIPT material.unit_of_measure with ⟨db3, res⟩
      rw [hus] at h
      cases res with
      | error e => simp at h
      | ok v =>
        simp only [] at h
        injection h with h1 h2
        subst h1
        have hstep := inv_update_and_append db item.material_id gr.location_id
          item.quantity MovementType.GOODS_RECEIPT material.unit_of_measure
          material loc2
          { material_id := item.material_id,
            material_code := item.material_code,
            location_id := gr.location_id,
            plant_code := loc.plant_code,
            storage_location := loc.storage_location,
            movement_type := MovementType.GOODS_RECEIPT,
            document_number := dn,
            quantity := item.quantity,
            unit_of_measure := material.unit_of_measure,
            posting_date := gr.posting_date,
            reference_document := gr.po_number }
          hm hl rfl rfl (by simp [signedDelta, direction_increase]) hinv
        rw [hus] at hstep
        exact hstep

/-- gi_record_item_inv: one successfully processed goods-issue line preserves
the stock/ledger invariant, provided the document's movement type has
decrease direction (so that the negated ledger quantity matches the balance
delta actually applied). -/
theorem gi_record_item_inv (loc : Location) (gi : GoodsIssueCreate) (dn : String)
    (db db2 : DB) (item : GoodsIssueItem) (u : Unit)
    (h : gi_record_item loc gi dn db item = (db2, Except.ok u))
    (hdec : gi.movement_type = MovementType.GOODS_ISSUE_CONSUMPTION ∨
            gi.movement_type = MovementType.GOODS_ISSUE_SALES ∨
            gi.movement_type = MovementType.RETURN_TO_VENDOR)
    (hinv : StockLedgerInv db) : StockLedgerInv db2 := by
  unfold gi_record_item at h
  cases hm : find_material db.materials item.material_id with
  | none =>
    simp only [hm] at h
    injection h with h1 h2
    subst h1
    exact hinv
  | some material =>
    simp only [hm] at h
    cases hl : find_location db.locations gi.location_id with
    | none =>
      rw [update_stock_not_found db _ _ _ _ _ (Or.inr hl)] at h
      simp at h
    | some loc2 =>
      rcases hus : update_stock db item.material_id gi.location_id item.quantity
          gi.movement_type material.unit_of_measure with ⟨db3, res⟩
      rw [hus] at h
      cases res with
      | error e => simp at h
      | ok v =>
        simp only [] at h
        injection h with h1 h2
        subst h1
        have hq : -item.quantity = signedDelta gi.movement_type item.quantity := by
          rcases hdec with hd | hd | hd <;>
            rw [hd] <;> simp [signedDelta, direction_increase]
        have hstep := inv_update_and_append db item.material_id gi.location_id
          item.quantity gi.movement_type material.unit_of_measure
          material loc2
          { material_id := item.material_id,
            material_code := item.material_code,
            location_id := gi.location_id,
            plant_code := loc.plant_code,
            storage_location := loc.storage_location,
            movement_type := gi.movement_type,
            document_number := dn,
            quantity := -item.quantity,
            unit_of_measure := material.unit_of_measure,
            posting_date := gi.posting_date,
            reference_document := none }
          hm hl rfl rfl hq hinv
        rw [hus] at hstep
        exact hstep

/-- gr_items_loop_inv: a successfully completed goods-receipt items loop
preserves the stock/ledger invariant. -/
theorem gr_items_loop_inv (loc : Location) (gr : GoodsReceiptCreate) (dn : String) :
    ∀ (items : List GoodsReceiptItem) (db db2 : DB) (u : Unit),
      gr_items_loop loc gr dn db items = (db2, Except.ok u) →
      StockLedgerInv db → StockLedgerInv db2 := by
  intro items
  induction items with
  | nil =>
    intro db db2 u h hinv
    unfold gr_items_loop at h
    injection h with h1 h2
    subst h1
    exact hinv
  | cons item rest ih =>
    intro db db2 u h hinv
    unfold gr_items_loop at h
    rcases hri : gr_record_item loc gr dn db item with ⟨db3, res⟩
    rw [hri] at h
    cases res with
    | error e => simp at h
    | ok v =>
      exact ih db3 db2 u h (gr_record_item_inv loc gr dn db db3 item v hri hinv)

/-- gi_items_loop_inv: a successfully completed goods-issue items loop
preserves the stock/ledger invariant for decrease-direction movement
types. -/
theorem gi_items_loop_inv (loc : Location) (gi : GoodsIssueCreate) (dn : String)
    (hdec : gi.movement_type = MovementType.GOODS_ISSUE_CONSUMPTION ∨
            gi.movement_type = MovementType.GOODS_ISSUE_SALES ∨
            gi.movement_type = MovementType.RETURN_TO_VENDOR) :
    ∀ (items : List GoodsIssueItem) (db db2 : DB) (u : Unit),
      gi_items_loop loc gi dn db items = (db2, Except.ok u) →
      StockLedgerInv db → StockLedgerInv db2 := by
  intro items
  induction items with
  | nil =>
    intro db db2 u h hinv
    unfold gi_items_loop at h
    injection h with h1 h2
    subst h1
    exact hinv
  | cons item rest ih =>
    intro db db2 u h hinv
    unfold gi_items_loop at h
    rcases hri : gi_record_item loc gi dn db item with ⟨db3, res⟩
    rw [hri] at h
    cases res with
    | error e => simp at h
    | ok v =>
      exact ih db3 db2 u h (gi_record_item_inv loc gi dn db db3 item v hri hdec hinv)

/-- inv_gr_db1: storing the receipt document touches neither the balance
table nor the ledger. -/
theorem inv_gr_db1 (db : DB) (gr : GoodsReceiptCreate) (location : Location)
    (hinv : StockLedgerInv db) : StockLedgerInv (gr_db1 db gr location) :=
  ⟨hinv.1, hinv.2.1, fun s hs => Nat.lt_succ_of_lt (hinv.2.2 s hs)⟩

/-- inv_gi_db1: storing the issue document touches neither the balance table
nor the ledger. -/
theorem inv_gi_db1 (db : DB) (gi : GoodsIssueCreate) (location : Location)
    (hinv : StockLedgerInv db) : StockLedgerInv (gi_db1 db gi location) :=
  ⟨hinv.1, hinv.2.1, fun s hs => Nat.lt_succ_of_lt (hinv.2.2 s hs)⟩

/-- create_goods_receipt_inv: a successful goods-receipt posting preserves
the stock/ledger invariant. -/
theorem create_goods_receipt_inv (db db2 : DB) (gr : GoodsReceiptCreate)
    (gro : GoodsReceipt)
    (h : create_goods_receipt db gr = (db2, Except.ok gro))
    (hinv : StockLedgerInv db) : StockLedgerInv db2 := by
  unfold create_goods_receipt at h
  cases hl : find_location db.locations gr.location_id with
  | none =>
    simp only [hl] at h
    exact absurd h (by simp)
  | some location =>
    simp only [hl] at h
    rcases hloop : gr_items_loop location gr (gr_doc db gr location).document_number
        (gr_db1 db gr location) gr.items with ⟨db3, res⟩
    rw [hloop] at h
    cases res with
    | error e => simp at h
    | ok v =>
      simp only [] at h
      injection h with h1 h2
      subst h1
      exact gr_items_loop_inv location gr (gr_doc db gr location).document_number
        gr.items (gr_db1 db gr location) db3 v hloop (inv_gr_db1 db gr location hinv)

/-- create_goods_issue_inv: a successful goods-issue posting with a
decrease-direction movement type preserves the stock/ledger invariant. -/
theorem create_goods_issue_inv (db db2 : DB) (gi : GoodsIssueCreate)
    (gio : GoodsIssue)
    (h : create_goods_issue db gi = (db2, Except.ok gio))
    (hdec : gi.movement_type = MovementType.GOODS_ISSUE_CONSUMPTION ∨
            gi.movement_type = MovementType.GOODS_ISSUE_SALES ∨
            gi.movement_type = MovementType.RETURN_TO_VENDOR)
    (hinv : StockLedgerInv db) : StockLedgerInv db2 := by
  unfold create_goods_issue at h
  cases hl : find_location db.locations gi.location_id with
  | none =>
    simp only [hl] at h
    exact absurd h (by simp)
  | some location =>
    simp only [hl] at h
    rcases hloop : gi_items_loop location gi (gi_doc db gi location).document_number
        (gi_db1 db gi location) gi.items with ⟨db3, res⟩
    rw [hloop] at h
    cases res with
    | error e => simp at h
    | ok v =>
      simp only [] at h
      injection h with h1 h2
      subst h1
      exact gi_items_loop_inv location gi (gi_doc db gi location).document_number hdec
        gi.items (gi_db1 db gi location) db3 v hloop (inv_gi_db1 db gi location hinv)

/-- apply_posting_inv: a successful posting whose movement type satisfies
the decrease-only side condition preserves the stock/ledger invariant. -/
theorem apply_posting_inv (db db2 : DB) (p : Posting) (u : Unit)
    (h : apply_posting db p = (db2, Except.ok u))
    (hdec : posting_decrease_only p)
    (hinv : StockLedgerInv db) : StockLedgerInv db2 := by
  cases p with
  | receipt gr =>
    simp only [apply_posting] at h
    rcases hc : create_goods_receipt db gr with ⟨db3, res⟩
    rw [hc] at h
    cases res with
    | error e => simp at h
    | ok gro =>
      simp only [] at h
      injection h with h1 h2
      subst h1
      exact create_goods_receipt_inv db db3 gr gro hc hinv
  | issue gi =>
    simp only [apply_posting] at h
    rcases hc : create_goods_issue db gi with ⟨db3, res⟩
    rw [hc] at h
    cases res with
    | error e => simp at h
    | ok gio =>
      simp only [] at h
      injection h with h1 h2
      subst h1
      exact create_goods_issue_inv db db3 gi gio hc hdec hinv

/-- run_postings_inv: a successful sequence of postings, each satisfying the
decrease-only side condition, preserves the stock/ledger invariant. -/
theorem run_postings_inv :
    ∀ (ps : List Posting) (db db2 : DB),
      (∀ p ∈ ps, posting_decrease_only p) →
      run_postings db ps = some db2 →
      StockLedgerInv db → StockLedgerInv db2 := by
  intro ps
  induction ps with
  | nil =>
    intro db db2 _ h hinv
    unfold run_postings at h
    injection h with h1
    subst h1
    exact hinv
  | cons p rest ih =>
    intro db db2 hall h hinv
    unfold run_postings at h
    rcases hap : apply_posting db p with ⟨db3, res⟩
    rw [hap] at h
    cases res with
    | error e => simp at h
    | ok u =>
      exact ih db3 db2 (fun q hq => hall q (by simp [hq])) h
        (apply_posting_inv db db3 p u hap (hall p (by simp)) hinv)

/-! Claim C1. -/

/-- C1 (amended): for every sequence of postings starting from a state with
no balance rows and no ledger entries, in which every goods-issue document
uses a decrease-direction movement type (201, 601 or 122), after every
successful run the balance of each (material, location) pair equals the sum
of the quantities of that pair's ledger entries. (The amendment excludes
goods issues posted with the increase-direction types 311 and 161, on which
the invariant fails; see the counterexample.) -/
theorem C1_balance_eq_ledger_sum (ps : List Posting)
    (hdec : ∀ p ∈ ps, posting_decrease_only p)
    (db0 : DB) (hcs : db0.current_stock = []) (hsm : db0.stock_movements = [])
    (db2 : DB) (hrun : run_postings db0 ps = some db2) :
    ∀ mid lid,
      balanceOf db2.current_stock mid lid = ledgerSum db2.stock_movements mid lid := by
  have hinv0 : StockLedgerInv db0 := by
    refine ⟨?_, ?_, ?_⟩
    · intro mid lid
      rw [hcs, hsm]
      rfl
    · rw [hcs]
      exact List.nodup_nil
    · intro s hs
      rw [hcs] at hs
      simp at hs
  exact (run_postings_inv ps db0 db2 hdec hrun hinv0).1

/-- C1 counterexample: from the empty demo state, the single posting of a
goods issue with movement type 311 (stock transfer) succeeds, yet afterwards
the balance row holds +5 while the ledger entries for the pair sum to -5, so
the claimed invariant is false for this sequence of postings. -/
theorem C1_counterexample :
    run_postings demoDB [Posting.issue demoTransferIssue] =
      some ((run_postings demoDB [Posting.issue demoTransferIssue]).getD demoDB) ∧
    balanceOf ((run_postings demoDB
        [Posting.issue demoTransferIssue]).getD demoDB).current_stock "M1" "L1" = 5 ∧
    ledgerSum ((run_postings demoDB
        [Posting.issue demoTransferIssue]).getD demoDB).stock_movements "M1" "L1" = -5 ∧
    balanceOf ((run_postings demoDB
        [Posting.issue demoTransferIssue]).getD demoDB).current_stock "M1" "L1" ≠
      ledgerSum ((run_postings demoDB
        [Posting.issue demoTransferIssue]).getD demoDB).stock_movements "M1" "L1" := by
  refine ⟨rfl, ?_, ?_, ?_⟩ <;>
    · simp [run_postings, apply_posting, create_goods_issue, gi_doc, gi_db1,
        gi_items_loop, gi_record_item, update_stock, find_material, find_location,
        find_stock, balanceOf, ledgerSum, demoDB, demoMaterial, demoLocation,
        demoTransferIssue, updateFirst]
      try norm_num

/-- C1 witness: the amended invariant theorem applied to the concrete
sequence [receipt of 100, consumption issue of 30] from the demo state. -/
theorem C1_balance_eq_ledger_sum_witness :
    balanceOf ((run_postings demoDB [Posting.receipt demoReceipt,
        Posting.issue demoConsumptionIssue]).getD demoDB).current_stock "M1" "L1" =
    ledgerSum ((run_postings demoDB [Posting.receipt demoReceipt,
        Posting.issue demoConsumptionIssue]).getD demoDB).stock_movements "M1" "L1" :=
  C1_balance_eq_ledger_sum
    [Posting.receipt demoReceipt, Posting.issue demoConsumptionIssue]
    (by simp [posting_decrease_only, demoConsumptionIssue])
    demoDB rfl rfl _ rfl "M1" "L1"

/-! Ledger-entry provenance lemmas (used by claim C2). -/

/-- gr_record_item_movements: every ledger entry present after one processed
goods-receipt line was already present before, or is the line's own entry
with the raw (positive) quantity. -/
theorem gr_record_item_movements (loc : Location) (gr : GoodsReceiptCreate)
    (dn : String) (db : DB) (item : GoodsReceiptItem) :
    ∀ mv ∈ (gr_record_item loc gr dn db item).fst.stock_movements,
      mv ∈ db.stock_movements ∨
        (mv.movement_type = MovementType.GOODS_RECEIPT ∧
         mv.quantity = item.quantity) := by
  intro mv hmv
  unfold gr_record_item at hmv
  cases hm : find_material db.materials item.material_id with
  | none =>
    simp only [hm] at hmv
    exact Or.inl hmv
  | some m =>
    simp only [hm] at hmv
    rcases hus : update_stock db item.material_id gr.location_id item.quantity
        MovementType.GOODS_RECEIPT m.unit_of_measure with ⟨db3, res⟩
    rw [hus] at hmv
    have hframe := update_stock_frame db item.material_id gr.location_id item.quantity
      MovementType.GOODS_RECEIPT m.unit_of_measure
    rw [hus] at hframe
    cases res with
    | error e =>
      rw [hframe.2.2] at hmv
      exact Or.inl hmv
    | ok v =>
      simp only [List.mem_append, List.mem_singleton] at hmv
      rcases hmv with hmv | hmv
      · rw [hframe.2.2] at hmv
        exact Or.inl hmv
      · subst hmv
        exact Or.inr ⟨rfl, rfl⟩

/-- gi_record_item_movements: every ledger entry present after one processed
goods-issue line was already present before, or is the line's own entry with
the negated raw quantity and the document's movement type. -/
theorem gi_record_item_movements (loc : Location) (gi : GoodsIssueCreate)
    (dn : String) (db : DB) (item : GoodsIssueItem) :
    ∀ mv ∈ (gi_record_item loc gi dn db item).fst.stock_movements,
      mv ∈ db.stock_movements ∨
        (mv.movement_type = gi.movement_type ∧ mv.quantity = -item.quantity) := by
  intro mv hmv
  unfold gi_record_item at hmv
  cases hm : find_material db.materials item.material_id with
  | none =>
    simp only [hm] at hmv
    exact Or.inl hmv
  | some m =>
    simp only [hm] at hmv
    rcases hus : update_stock db item.material_id gi.location_id item.quantity
        gi.movement_type m.unit_of_measure with ⟨db3, res⟩
    rw [hus] at hmv
    have hframe := update_stock_frame db item.material_id gi.location_id item.quantity
      gi.movement_type m.unit_of_measure
    rw [hus] at hframe
    cases res with
    | error e =>
      rw [hframe.2.2] at hmv
      exact Or.inl hmv
    | ok v =>
      simp only [List.mem_append, List.mem_singleton] at hmv
      rcases hmv with hmv | hmv
      · rw [hframe.2.2] at hmv
        exact Or.inl hmv
      · subst hmv
        exact Or.inr ⟨rfl, rfl⟩

/-- gr_items_loop_movements lifts `gr_record_item_movements` over the loop. -/
theorem gr_items_loop_movements (loc : Location) (gr : GoodsReceiptCreate)
    (dn : String) :
    ∀ (items : List GoodsReceiptItem) (db : DB),
      ∀ mv ∈ (gr_items_loop loc gr dn db items).fst.stock_movements,
        mv ∈ db.stock_movements ∨ ∃ item ∈ items,
          mv.movement_type = MovementType.GOODS_RECEIPT ∧
          mv.quantity = item.quantity := by
  intro items
  induction items with
  | nil =>
    intro db mv hmv
    exact Or.inl hmv
  | cons item rest ih =>
    intro db mv hmv
    unfold gr_items_loop at hmv
    rcases hri : gr_record_item loc gr dn db item with ⟨db3, res⟩
    rw [hri] at hmv
    cases res with
    | error e =>
      have hstep := gr_record_item_movements loc gr dn db item mv
        (by rw [hri]; exact hmv)
      rcases hstep with h | h
      · exact Or.inl h
      · exact Or.inr ⟨item, by simp, h⟩
    | ok v =>
      rcases ih db3 mv hmv with h | ⟨it, hit, hp⟩
      · have hstep := gr_record_item_movements loc gr dn db item mv
          (by rw [hri]; exact h)
        rcases hstep with h2 | h2
        · exact Or.inl h2
        · exact Or.inr ⟨item, by simp, h2⟩
      · exact Or.inr ⟨it, by simp [hit], hp⟩

/-- gi_items_loop_movements lifts `gi_record_item_movements` over the loop. -/
theorem gi_items_loop_movements (loc : Location) (gi : GoodsIssueCreate)
    (dn : String) :
    ∀ (items : List GoodsIssueItem) (db : DB),
      ∀ mv ∈ (gi_items_loop loc gi dn db items).fst.stock_movements,
        mv ∈ db.stock_movements ∨ ∃ item ∈ items,
          mv.movement_type = gi.movement_type ∧ mv.quantity = -item.quantity := by
  intro items
  induction items with
  | nil =>
    intro db mv hmv
    exact Or.inl hmv
  | cons item rest ih =>
    intro db mv hmv
    unfold gi_items_loop at hmv
    rcases hri : gi_record_item loc gi dn db item with ⟨db3, res⟩
    rw [hri] at hmv
    cases res with
    | error e =>
      have hstep := gi_record_item_movements loc gi dn db item mv
        (by rw [hri]; exact hmv)
      rcases hstep with h | h
      · exact Or.inl h
      · exact Or.inr ⟨item, by simp, h⟩
    | ok v =>
      rcases ih db3 mv hmv with h | ⟨it, hit, hp⟩
      · have hstep := gi_record_item_movements loc gi dn db item mv
          (by rw [hri]; exact h)
        rcases hstep with h2 | h2
        · exact Or.inl h2
        · exact Or.inr ⟨item, by simp, h2⟩
      · exact Or.inr ⟨it, by simp [hit], hp⟩

/-! Claim C2. -/

/-- C2 (amended): every ledger entry stored by a posting carries the raw line
quantity for a goods receipt, and the negated raw line quantity for a goods
issue regardless of the direction of its movement type (the issue endpoint
negates unconditionally). In particular a goods issue posted with
return-from-customer or stock-transfer records a negative, not positive,
quantity. -/
theorem C2_ledger_entry_quantity (db : DB) (gr : GoodsReceiptCreate)
    (gi : GoodsIssueCreate) :
    (∀ mv ∈ (create_goods_receipt db gr).fst.stock_movements,
        mv ∈ db.stock_movements ∨ ∃ item ∈ gr.items,
          mv.movement_type = MovementType.GOODS_RECEIPT ∧
          mv.quantity = item.quantity) ∧
    (∀ mv ∈ (create_goods_issue db gi).fst.stock_movements,
        mv ∈ db.stock_movements ∨ ∃ item ∈ gi.items,
          mv.movement_type = gi.movement_type ∧ mv.quantity = -item.quantity) := by
  constructor
  · intro mv hmv
    unfold create_goods_receipt at hmv
    cases hl : find_location db.locations gr.location_id with
    | none =>
      simp only [hl] at hmv
      exact Or.inl hmv
    | some location =>
      simp only [hl] at hmv
      rcases hloop : gr_items_loop location gr (gr_doc db gr location).document_number
          (gr_db1 db gr location) gr.items with ⟨db3, res⟩
      rw [hloop] at hmv
      have hmv3 : mv ∈ db3.stock_movements := by
        cases res with
        | error e => exact hmv
        | ok v => exact hmv
      have hres := gr_items_loop_movements location gr
        (gr_doc db gr location).document_number gr.items (gr_db1 db gr location) mv
        (by rw [hloop]; exact hmv3)
      exact hres
  · intro mv hmv
    unfold create_goods_issue at hmv
    cases hl : find_location db.locations gi.location_id with
    | none =>
      simp only [hl] at hmv
      exact Or.inl hmv
    | some location =>
      simp only [hl] at hmv
      rcases hloop : gi_items_loop location gi (gi_doc db gi location).document_number
          (gi_db1 db gi location) gi.items with ⟨db3, res⟩
      rw [hloop] at hmv
      have hmv3 : mv ∈ db3.stock_movements := by
        cases res with
        | error e => exact hmv
        | ok v => exact hmv
      have hres := gi_items_loop_movements location gi
        (gi_doc db gi location).document_number gi.items (gi_db1 db gi location) mv
        (by rw [hloop]; exact hmv3)
      exact hres

/-- C2 counterexample: a goods issue posted with movement type 161 (return
from customer), whose direction is increase, stores a ledger entry with
quantity -5, not the raw +5 the sign-derivation rule would give. -/
theorem C2_counterexample :
    ((create_goods_issue demoDB demoReturnIssue).fst.stock_movements.map
        (fun mv => mv.quantity)) = [-5] ∧
    direction_increase MovementType.RETURN_FROM_CUSTOMER = true ∧
    ((-5 : ℚ) = 5 → False) := by
  refine ⟨?_, rfl, by norm_num⟩
  simp [create_goods_issue, gi_doc, gi_db1, gi_items_loop, gi_record_item,
    update_stock, find_material, find_location, find_stock, demoDB, demoMaterial,
    demoLocation, demoReturnIssue, updateFirst]

/-- C2 witness: the amended theorem applied to the demo receipt posting and
the concrete ledger entry it writes. -/
theorem C2_ledger_entry_quantity_witness :
    demoMovementGR ∈ demoDB.stock_movements ∨ ∃ item ∈ demoReceipt.items,
      demoMovementGR.movement_type = MovementType.GOODS_RECEIPT ∧
      demoMovementGR.quantity = item.quantity :=
  (C2_ledger_entry_quantity demoDB demoReceipt demoReturnIssue).1 demoMovementGR
    (by exact List.mem_singleton.mpr rfl)

/-! Claim C3. -/

/-- C3: for every movement type and positive raw quantity, a successful
`update_stock` changes the pair's balance by `+quantity` when the movement
type's direction is increase (101, 311, 161) and by `-quantity` when it is
decrease (201, 601, 122). -/
theorem C3_applied_delta_sign (db : DB) (mid lid : String) (q : ℚ)
    (mt : MovementType) (uom : String) (hq : 0 < q)
    (hnd : (db.current_stock.map (fun s => s.id)).Nodup)
    (hok : (update_stock db mid lid q mt uom).snd = Except.ok ()) :
    balanceOf (update_stock db mid lid q mt uom).fst.current_stock mid lid =
      balanceOf db.current_stock mid lid +
        (if direction_increase mt then q else -q) := by
  cases hm : find_material db.materials mid with
  | none =>
    rw [update_stock_not_found db mid lid q mt uom (Or.inl hm)] at hok
    simp at hok
  | some m =>
    cases hl : find_location db.locations lid with
    | none =>
      rw [update_stock_not_found db mid lid q mt uom (Or.inr hl)] at hok
      simp at hok
    | some loc =>
      exact (update_stock_balance db mid lid q mt uom m loc hm hl hnd).1

/-- C3 witness: the theorem applied to a first receipt of 25 units in the
demo state. -/
theorem C3_applied_delta_sign_witness :
    balanceOf (update_stock demoDB "M1" "L1" 25
        MovementType.GOODS_RECEIPT "PC").fst.current_stock "M1" "L1" =
      balanceOf demoDB.current_stock "M1" "L1" +
        (if direction_increase MovementType.GOODS_RECEIPT then 25 else -25) :=
  C3_applied_delta_sign demoDB "M1" "L1" 25 MovementType.GOODS_RECEIPT "PC"
    (by norm_num) (by simp [demoDB]) rfl

/-! Claim C4. -/

/-- C4 counterexample: posting a goods receipt whose single line has quantity
-5 is not rejected: the call succeeds, a ledger entry with quantity -5 is
written and the pair's balance becomes -5. -/
theorem C4_counterexample :
    isOkE (create_goods_receipt demoDB negativeReceipt).snd = true ∧
    ((create_goods_receipt demoDB negativeReceipt).fst.stock_movements.map
        (fun mv => mv.quantity)) = [-5] ∧
    balanceOf (create_goods_receipt demoDB negativeReceipt).fst.current_stock
        "M1" "L1" = -5 := by
  refine ⟨rfl, ?_, ?_⟩ <;>
    · simp [create_goods_receipt, gr_doc, gr_db1, gr_items_loop, gr_record_item,
        update_stock, find_material, find_location, find_stock, balanceOf,
        demoDB, demoMaterial, demoLocation, negativeReceipt, updateFirst]
      try norm_num

/-- C4 (amended): no quantity validation exists at the posting interface: a
single-line goods receipt with a non-positive quantity is accepted, and the
line is processed exactly like any other — the ledger entry is written with
the signed quantity and the balance changes by it. -/
theorem C4_no_quantity_validation (db : DB) (gr : GoodsReceiptCreate)
    (item : GoodsReceiptItem) (m : Material) (loc : Location)
    (hitems : gr.items = [item]) (hq : item.quantity ≤ 0)
    (hm : find_material db.materials item.material_id = some m)
    (hl : find_location db.locations gr.location_id = some loc)
    (hnd : (db.current_stock.map (fun s => s.id)).Nodup) :
    isOkE (create_goods_receipt db gr).snd = true ∧
    (create_goods_receipt db gr).fst.stock_movements =
      db.stock_movements ++
        [{ material_id := item.material_id, material_code := item.material_code,
           location_id := gr.location_id, plant_code := loc.plant_code,
           storage_location := loc.storage_location,
           movement_type := MovementType.GOODS_RECEIPT,
           document_number := (gr_doc db gr loc).document_number,
           quantity := item.quantity, unit_of_measure := m.unit_of_measure,
           posting_date := gr.posting_date,
           reference_document := gr.po_number }] ∧
    balanceOf (create_goods_receipt db gr).fst.current_stock
        item.material_id gr.location_id =
      balanceOf db.current_stock item.material_id gr.location_id + item.quantity := by
  have hrec := gr_record_item_found loc gr (gr_doc db gr loc).document_number
    (gr_db1 db gr loc) item m loc hm hl
  have hcreate : create_goods_receipt db gr =
      ({ (update_stock (gr_db1 db gr loc) item.material_id gr.location_id
            item.quantity MovementType.GOODS_RECEIPT m.unit_of_measure).fst with
         stock_movements :=
           (update_stock (gr_db1 db gr loc) item.material_id gr.location_id
              item.quantity MovementType.GOODS_RECEIPT m.unit_of_measure).fst.stock_movements ++
             [{ material_id := item.material_id,
                material_code := item.material_code,
                location_id := gr.location_id,
                plant_code := loc.plant_code,
                storage_location := loc.storage_location,
                movement_type := MovementType.GOODS_RECEIPT,
                document_number := (gr_doc db gr loc).document_number,
                quantity := item.quantity,
                unit_of_measure := m.unit_of_measure,
                posting_date := gr.posting_date,
                reference_document := gr.po_number }] },
       Except.ok (gr_doc db gr loc)) := by
    unfold create_goods_receipt
    simp only [hl, hitems]
    unfold gr_items_loop
    rw [hrec]
    rfl
  have hframe := update_stock_frame (gr_db1 db gr loc) item.material_id
    gr.location_id item.quantity MovementType.GOODS_RECEIPT m.unit_of_measure
  refine ⟨by rw [hcreate]; rfl, ?_, ?_⟩
  · rw [hcreate]
    show (update_stock (gr_db1 db gr loc) item.material_id gr.location_id
        item.quantity MovementType.GOODS_RECEIPT m.unit_of_measure).fst.stock_movements ++ _ =
      db.stock_movements ++ _
    rw [hframe.2.2]
    rfl
  · rw [hcreate]
    exact (update_stock_balance (gr_db1 db gr loc) item.material_id gr.location_id
      item.quantity MovementType.GOODS_RECEIPT m.unit_of_measure m loc hm hl hnd).1

/-- C4 witness: the amended theorem applied to the concrete receipt of -5. -/
theorem C4_no_quantity_validation_witness :
    isOkE (create_goods_receipt demoDB negativeReceipt).snd = true ∧
    (create_goods_receipt demoDB negativeReceipt).fst.stock_movements =
      demoDB.stock_movements ++
        [{ material_id := "M1", material_code := "MAT1", location_id := "L1",
           plant_code := "P1", storage_location := "S1",
           movement_type := MovementType.GOODS_RECEIPT,
           document_number := "GR0", quantity := -5, unit_of_measure := "PC",
           posting_date := 0, reference_document := none }] ∧
    balanceOf (create_goods_receipt demoDB negativeReceipt).fst.current_stock
        "M1" "L1" =
      balanceOf demoDB.current_stock "M1" "L1" + (-5) :=
  C4_no_quantity_validation demoDB negativeReceipt
    { material_id := "M1", material_code := "MAT1", quantity := -5,
      unit_price := none, total_amount := none }
    demoMaterial demoLocation rfl (by norm_num) rfl rfl (by simp [demoDB])

/-! Loop lemmas used by claims C5 and C10. -/

/-- gr_items_loop_cons is the definitional unfolding of one loop step. -/
theorem gr_items_loop_cons (loc : Location) (gr : GoodsReceiptCreate) (dn : String)
    (db : DB) (item : GoodsReceiptItem) (rest : List GoodsReceiptItem) :
    gr_items_loop loc gr dn db (item :: rest) =
      match gr_record_item loc gr dn db item with
      | (db2, Except.ok _) => gr_items_loop loc gr dn db2 rest
      | (db2, Except.error e) => (db2, Except.error e) := rfl

/-- gi_items_loop_cons is the definitional unfolding of one loop step. -/
theorem gi_items_loop_cons (loc : Location) (gi : GoodsIssueCreate) (dn : String)
    (db : DB) (item : GoodsIssueItem) (rest : List GoodsIssueItem) :
    gi_items_loop loc gi dn db (item :: rest) =
      match gi_record_item loc gi dn db item with
      | (db2, Except.ok _) => gi_items_loop loc gi dn db2 rest
      | (db2, Except.error e) => (db2, Except.error e) := rfl

/-- gr_record_item_skip: a goods-receipt line whose material does not resolve
is silently skipped, leaving the state untouched. -/
theorem gr_record_item_skip (loc : Location) (gr : GoodsReceiptCreate) (dn : String)
    (db : DB) (item : GoodsReceiptItem)
    (hm : find_material db.materials item.material_id = none) :
    gr_record_item loc gr dn db item = (db, Except.ok ()) := by
  unfold gr_record_item
  rw [hm]

/-- gi_record_item_skip: a goods-issue line whose material does not resolve
is silently skipped, leaving the state untouched. -/
theorem gi_record_item_skip (loc : Location) (gi : GoodsIssueCreate) (dn : String)
    (db : DB) (item : GoodsIssueItem)
    (hm : find_material db.materials item.material_id = none) :
    gi_record_item loc gi dn db item = (db, Except.ok ()) := by
  unfold gi_record_item
  rw [hm]

/-- gr_items_loop_ok: when the document's location resolves, the
goods-receipt items loop never raises. -/
theorem gr_items_loop_ok (loc : Location) (gr : GoodsReceiptCreate) (dn : String) :
    ∀ (items : List GoodsReceiptItem) (db : DB) (loc2 : Location),
      find_location db.locations gr.location_id = some loc2 →
      ∃ db2, gr_items_loop loc gr dn db items = (db2, Except.ok ()) := by
  intro items
  induction items with
  | nil =>
    intro db loc2 hl
    exact ⟨db, rfl⟩
  | cons item rest ih =>
    intro db loc2 hl
    rw [gr_items_loop_cons]
    cases hm : find_material db.materials item.material_id with
    | none =>
      rw [gr_record_item_skip loc gr dn db item hm]
      exact ih db loc2 hl
    | some m =>
      rcases hri : gr_record_item loc gr dn db item with ⟨db3, res⟩
      have hfr := gr_record_item_frame loc gr dn db item
      rw [hri] at hfr
      have hfound := gr_record_item_found loc gr dn db item m loc2 hm hl
      rw [hri] at hfound
      injection hfound with h1 h2
      subst h2
      refine ih db3 loc2 ?_
      rw [show db3.locations = db.locations from hfr.2]
      exact hl

/-- gi_items_loop_ok: when the document's location resolves, the goods-issue
items loop never raises. -/
theorem gi_items_loop_ok (loc : Location) (gi : GoodsIssueCreate) (dn : String) :
    ∀ (items : List GoodsIssueItem) (db : DB) (loc2 : Location),
      find_location db.locations gi.location_id = some loc2 →
      ∃ db2, gi_items_loop loc gi dn db items = (db2, Except.ok ()) := by
  intro items
  induction items with
  | nil =>
    intro db loc2 hl
    exact ⟨db, rfl⟩
  | cons item rest ih =>
    intro db loc2 hl
    rw [gi_items_loop_cons]
    cases hm : find_material db.materials item.material_id with
    | none =>
      rw [gi_record_item_skip loc gi dn db item hm]
      exact ih db loc2 hl
    | some m =>
      rcases hri : gi_record_item loc gi dn db item with ⟨db3, res⟩
      have hfr := gi_record_item_frame loc gi dn db item
      rw [hri] at hfr
      have hfound := gi_record_item_found loc gi dn db item m loc2 hm hl
      rw [hri] at hfound
      injection hfound with h1 h2
      subst h2
      refine ih db3 loc2 ?_
      rw [show db3.locations = db.locations from hfr.2]
      exact hl

/-- gr_items_loop_skip: a goods-receipt line whose material does not resolve
contributes nothing: the loop behaves as if the line were absent. -/
theorem gr_items_loop_skip (loc : Location) (gr : GoodsReceiptCreate)
    (bad : GoodsReceiptItem) :
    ∀ (pre : List GoodsReceiptItem) (dn : String) (db : DB),
      find_material db.materials bad.material_id = none →
      ∀ post, gr_items_loop loc gr dn db (pre ++ bad :: post) =
              gr_items_loop loc gr dn db (pre ++ post) := by
  intro pre
  induction pre with
  | nil =>
    intro dn db hnone post
    show gr_items_loop loc gr dn db (bad :: post) = _
    rw [gr_items_loop_cons, gr_record_item_skip loc gr dn db bad hnone]
    rfl
  | cons a pre ih =>
    intro dn db hnone post
    show gr_items_loop loc gr dn db (a :: (pre ++ bad :: post)) =
      gr_items_loop loc gr dn db (a :: (pre ++ post))
    rw [gr_items_loop_cons, gr_items_loop_cons]
    rcases hra : gr_record_item loc gr dn db a with ⟨db3, res⟩
    have hfr := gr_record_item_frame loc gr dn db a
    rw [hra] at hfr
    cases res with
    | error e => rfl
    | ok v =>
      have hnone3 : find_material db3.materials bad.material_id = none := by
        rw [show db3.materials = db.materials from hfr.1]
        exact hnone
      exact ih dn db3 hnone3 post

/-- gi_items_loop_skip: a goods-issue line whose material does not resolve
contributes nothing: the loop behaves as if the line were absent. -/
theorem gi_items_loop_skip (loc : Location) (gi : GoodsIssueCreate)
    (bad : GoodsIssueItem) :
    ∀ (pre : List GoodsIssueItem) (dn : String) (db : DB),
      find_material db.materials bad.material_id = none →
      ∀ post, gi_items_loop loc gi dn db (pre ++ bad :: post) =
              gi_items_loop loc gi dn db (pre ++ post) := by
  intro pre
  induction pre with
  | nil =>
    intro dn db hnone post
    show gi_items_loop loc gi dn db (bad :: post) = _
    rw [gi_items_loop_cons, gi_record_item_skip loc gi dn db bad hnone]
    rfl
  | cons a pre ih =>
    intro dn db hnone post
    show gi_items_loop loc gi dn db (a :: (pre ++ bad :: post)) =
      gi_items_loop loc gi dn db (a :: (pre ++ post))
    rw [gi_items_loop_cons, gi_items_loop_cons]
    rcases hra : gi_record_item loc gi dn db a with ⟨db3, res⟩
    have hfr := gi_record_item_frame loc gi dn db a
    rw [hra] at hfr
    cases res with
    | error e => rfl
    | ok v =>
      have hnone3 : find_material db3.materials bad.material_id = none := by
        rw [show db3.materials = db.materials from hfr.1]
        exact hnone
      exact ih dn db3 hnone3 post

/-- create_goods_receipt_ok: a goods-receipt posting whose location resolves
always succeeds and returns the stored document. -/
theorem create_goods_receipt_ok (db : DB) (gr : GoodsReceiptCreate) (loc : Location)
    (hl : find_location db.locations gr.location_id = some loc) :
    (create_goods_receipt db gr).snd = Except.ok (gr_doc db gr loc) := by
  unfold create_goods_receipt
  simp only [hl]
  obtain ⟨db2, heq⟩ := gr_items_loop_ok loc gr (gr_doc db gr loc).document_number
    gr.items (gr_db1 db gr loc) loc hl
  rw [heq]

/-- create_goods_issue_ok: a goods-issue posting whose location resolves
always succeeds and returns the stored document. -/
theorem create_goods_issue_ok (db : DB) (gi : GoodsIssueCreate) (loc : Location)
    (hl : find_location db.locations gi.location_id = some loc) :
    (create_goods_issue db gi).snd = Except.ok (gi_doc db gi loc) := by
  unfold create_goods_issue
  simp only [hl]
  obtain ⟨db2, heq⟩ := gi_items_loop_ok loc gi (gi_doc db gi loc).document_number
    gi.items (gi_db1 db gi loc) loc hl
  rw [heq]

/-! Claim C5. -/

/-- C5: a line item whose material id does not resolve produces no ledger
entry and no balance change (processing it is the identity on the state),
every other line of the document is processed exactly as if the bad line
were absent, and the posting still returns success — for goods receipts and
goods issues alike. -/
theorem C5_missing_material_line_skipped (db : DB)
    (gr : GoodsReceiptCreate) (locr : Location) (badr : GoodsReceiptItem)
    (prer postr : List GoodsReceiptItem)
    (gi : GoodsIssueCreate) (loci : Location) (badi : GoodsIssueItem)
    (prei posti : List GoodsIssueItem)
    (hlr : find_location db.locations gr.location_id = some locr)
    (hir : gr.items = prer ++ badr :: postr)
    (hbr : find_material db.materials badr.material_id = none)
    (hli : find_location db.locations gi.location_id = some loci)
    (hii : gi.items = prei ++ badi :: posti)
    (hbi : find_material db.materials badi.material_id = none) :
    (create_goods_receipt db gr).snd = Except.ok (gr_doc db gr locr) ∧
    (∀ (dn : String) (db0 : DB), db0.materials = db.materials →
        gr_record_item locr gr dn db0 badr = (db0, Except.ok ())) ∧
    (∀ (dn : String) (db0 : DB), db0.materials = db.materials →
        gr_items_loop locr gr dn db0 (prer ++ badr :: postr) =
          gr_items_loop locr gr dn db0 (prer ++ postr)) ∧
    (create_goods_issue db gi).snd = Except.ok (gi_doc db gi loci) ∧
    (∀ (dn : String) (db0 : DB), db0.materials = db.materials →
        gi_record_item loci gi dn db0 badi = (db0, Except.ok ())) ∧
    (∀ (dn : String) (db0 : DB), db0.materials = db.materials →
        gi_items_loop loci gi dn db0 (prei ++ badi :: posti) =
          gi_items_loop loci gi dn db0 (prei ++ posti)) := by
  refine ⟨create_goods_receipt_ok db gr locr hlr, ?_, ?_,
          create_goods_issue_ok db gi loci hli, ?_, ?_⟩
  · intro dn db0 hmat
    exact gr_record_item_skip locr gr dn db0 badr (by rw [hmat]; exact hbr)
  · intro dn db0 hmat
    exact gr_items_loop_skip locr gr badr prer dn db0 (by rw [hmat]; exact hbr) postr
  · intro dn db0 hmat
    exact gi_record_item_skip loci gi dn db0 badi (by rw [hmat]; exact hbi)
  · intro dn db0 hmat
    exact gi_items_loop_skip loci gi badi prei dn db0 (by rw [hmat]; exact hbi) posti

/-- C5 witness: the theorem applied to the concrete two-line documents whose
first line names the unresolvable material M404. -/
theorem C5_missing_material_line_skipped_witness :
    (create_goods_receipt demoDB demoBadMaterialReceipt).snd =
      Except.ok (gr_doc demoDB demoBadMaterialReceipt demoLocation) ∧
    gr_items_loop demoLocation demoBadMaterialReceipt "GR0"
        (gr_db1 demoDB demoBadMaterialReceipt demoLocation)
        demoBadMaterialReceipt.items =
      gr_items_loop demoLocation demoBadMaterialReceipt "GR0"
        (gr_db1 demoDB demoBadMaterialReceipt demoLocation)
        [{ material_id := "M1", material_code := "MAT1", quantity := 40,
           unit_price := none, total_amount := none }] ∧
    (create_goods_issue demoDB demoBadMaterialIssue).snd =
      Except.ok (gi_doc demoDB demoBadMaterialIssue demoLocation) := by
  have h := C5_missing_material_line_skipped demoDB demoBadMaterialReceipt
    demoLocation
    { material_id := "M404", material_code := "MAT404", quantity := 10,
      unit_price := none, total_amount := none }
    []
    [{ material_id := "M1", material_code := "MAT1", quantity := 40,
       unit_price := none, total_amount := none }]
    demoBadMaterialIssue demoLocation
    { material_id := "M404", material_code := "MAT404", quantity := 3,
      cost_center := none }
    []
    [{ material_id := "M1", material_code := "MAT1", quantity := 8,
       cost_center := none }]
    rfl rfl rfl rfl rfl rfl
  exact ⟨h.1, h.2.2.1 "GR0" (gr_db1 demoDB demoBadMaterialReceipt demoLocation) rfl,
         h.2.2.2.1⟩

/-! Claim C6. -/

/-- C6: when the document's location id does not resolve, the posting (goods
receipt or goods issue) fails with the not-found error and the whole state is
returned unchanged: no document, no ledger entry, no balance row is written. -/
theorem C6_location_not_found (db : DB) (gr : GoodsReceiptCreate)
    (gi : GoodsIssueCreate)
    (hgr : find_location db.locations gr.location_id = none)
    (hgi : find_location db.locations gi.location_id = none) :
    create_goods_receipt db gr = (db, Except.error "Location not found") ∧
    create_goods_issue db gi = (db, Except.error "Location not found") := by
  constructor
  · unfold create_goods_receipt
    rw [hgr]
  · unfold create_goods_issue
    rw [hgi]

/-- C6 witness: the theorem applied to documents naming the unresolvable
location L404 in the demo state. -/
theorem C6_location_not_found_witness :
    create_goods_receipt demoDB demoBadLocReceipt =
      (demoDB, Except.error "Location not found") ∧
    create_goods_issue demoDB demoBadLocIssue =
      (demoDB, Except.error "Location not found") :=
  C6_location_not_found demoDB demoBadLocReceipt demoBadLocIssue rfl rfl

/-! Claim C7. -/

/-- C7: `update_stock` enforces no quantity lower bound: for every existing
balance row and every issued quantity, an issue-direction movement succeeds
and the new balance is the existing quantity minus the issued quantity, also
when that is negative. -/
theorem C7_no_lower_bound (db : DB) (mid lid : String) (q : ℚ)
    (mt : MovementType) (uom : String) (m : Material) (loc : Location)
    (r : CurrentStock)
    (hm : find_material db.materials mid = some m)
    (hl : find_location db.locations lid = some loc)
    (hr : find_stock db.current_stock mid lid = some r)
    (hnd : (db.current_stock.map (fun s => s.id)).Nodup)
    (hdec : mt = MovementType.GOODS_ISSUE_CONSUMPTION ∨
            mt = MovementType.GOODS_ISSUE_SALES ∨
            mt = MovementType.RETURN_TO_VENDOR) :
    (update_stock db mid lid q mt uom).snd = Except.ok () ∧
    balanceOf (update_stock db mid lid q mt uom).fst.current_stock mid lid =
      r.current_quantity - q := by
  refine ⟨update_stock_ok db mid lid q mt uom m loc hm hl, ?_⟩
  have hb := (update_stock_balance db mid lid q mt uom m loc hm hl hnd).1
  have hold : balanceOf db.current_stock mid lid = r.current_quantity := by
    unfold balanceOf
    rw [hr]
  have hsd : signedDelta mt q = -q := by
    rcases hdec with h | h | h <;> rw [h] <;> simp [signedDelta, direction_increase]
  rw [hb, hold, hsd]
  ring

/-- C7 witness: issuing 200 against an existing balance of 70 succeeds and
yields 70 - 200 = -130. -/
theorem C7_no_lower_bound_witness :
    ((update_stock demoStockDB "M1" "L1" 200
        MovementType.GOODS_ISSUE_CONSUMPTION "PC").snd = Except.ok () ∧
     balanceOf (update_stock demoStockDB "M1" "L1" 200
        MovementType.GOODS_ISSUE_CONSUMPTION "PC").fst.current_stock "M1" "L1" =
       demoStock70.current_quantity - 200) ∧
    demoStock70.current_quantity - 200 = -130 :=
  ⟨C7_no_lower_bound demoStockDB "M1" "L1" 200
     MovementType.GOODS_ISSUE_CONSUMPTION "PC" demoMaterial demoLocation
     demoStock70 rfl rfl rfl
     (by simp [demoStockDB, demoDB, demoStock70]) (Or.inl rfl),
   by norm_num [demoStock70]⟩

/-! Claim C8. -/

/-- C8: applying `update_stock` to a pair with no existing balance row
appends exactly one new row, seeded with the signed delta of that single
application as its quantity, with the material description and the location's
plant/storage codes denormalized from the resolved records, the fresh uuid as
its id and the current clock as its timestamp. -/
theorem C8_first_touch_creates_row (db : DB) (mid lid : String) (q : ℚ)
    (mt : MovementType) (uom : String) (m : Material) (loc : Location)
    (hm : find_material db.materials mid = some m)
    (hl : find_location db.locations lid = some loc)
    (hr : find_stock db.current_stock mid lid = none) :
    update_stock db mid lid q mt uom =
      ({ db with
           current_stock := db.current_stock ++
             [{ id := db.next_uuid,
                material_id := mid,
                material_code := m.material_code,
                material_description := m.material_description,
                location_id := lid,
                plant_code := loc.plant_code,
                storage_location := loc.storage_location,
                current_quantity := signedDelta mt q,
                unit_of_measure := uom,
                last_updated := db.clock }],
           clock := db.clock + 1,
           next_uuid := db.next_uuid + 1 }, Except.ok ()) :=
  update_stock_new db mid lid q mt uom m loc hm hl hr

/-- C8 witness: a first receipt of 25 units creates the one balance row with
quantity exactly 25 and the denormalized demo material/location fields. -/
theorem C8_first_touch_creates_row_witness :
    update_stock demoDB "M1" "L1" 25 MovementType.GOODS_RECEIPT "PC" =
      ({ demoDB with
           current_stock := demoDB.current_stock ++
             [{ id := 0, material_id := "M1", material_code := "MAT1",
                material_description := "Demo material", location_id := "L1",
                plant_code := "P1", storage_location := "S1",
                current_quantity := 25, unit_of_measure := "PC",
                last_updated := 0 }],
           clock := 1, next_uuid := 1 }, Except.ok ()) :=
  C8_first_touch_creates_row demoDB "M1" "L1" 25 MovementType.GOODS_RECEIPT "PC"
    demoMaterial demoLocation rfl rfl rfl

/-! Claim C9. -/

/-- C9: applying `update_stock` to an existing balance row rewrites exactly
that row in place, changing only its `current_quantity` (by the signed delta)
and `last_updated` fields — all its other fields are copied and every other
balance row and the ledger are left untouched. -/
theorem C9_update_in_place_frame (db : DB) (mid lid : String) (q : ℚ)
    (mt : MovementType) (uom : String) (m : Material) (loc : Location)
    (r : CurrentStock)
    (hm : find_material db.materials mid = some m)
    (hl : find_location db.locations lid = some loc)
    (hr : find_stock db.current_stock mid lid = some r)
    (hnd : (db.current_stock.map (fun s => s.id)).Nodup) :
    ∃ l1 l2, db.current_stock = l1 ++ r :: l2 ∧
      (update_stock db mid lid q mt uom).fst.current_stock =
        l1 ++ { r with current_quantity := r.current_quantity + signedDelta mt q,
                       last_updated := db.clock } :: l2 ∧
      (update_stock db mid lid q mt uom).fst.stock_movements =
        db.stock_movements ∧
      (update_stock db mid lid q mt uom).snd = Except.ok () := by
  obtain ⟨l1, l2, heq, hall, hconc⟩ :=
    update_stock_existing db mid lid q mt uom m loc r hm hl hr hnd
  refine ⟨l1, l2, heq, ?_, (update_stock_frame db mid lid q mt uom).2.2, ?_⟩
  · rw [hconc]
  · rw [hconc]

/-- C9 witness: updating the (M1, L1) row of a two-row balance table leaves
the (M9, L9) row and every other field of the updated row unchanged. -/
theorem C9_update_in_place_frame_witness :
    ∃ l1 l2, demoTwoRowDB.current_stock = l1 ++ demoStock70 :: l2 ∧
      (update_stock demoTwoRowDB "M1" "L1" 10
          MovementType.GOODS_RECEIPT "PC").fst.current_stock =
        l1 ++ { demoStock70 with
                current_quantity := demoStock70.current_quantity +
                  signedDelta MovementType.GOODS_RECEIPT 10,
                last_updated := demoTwoRowDB.clock } :: l2 ∧
      (update_stock demoTwoRowDB "M1" "L1" 10
          MovementType.GOODS_RECEIPT "PC").fst.stock_movements =
        demoTwoRowDB.stock_movements ∧
      (update_stock demoTwoRowDB "M1" "L1" 10
          MovementType.GOODS_RECEIPT "PC").snd = Except.ok () :=
  C9_update_in_place_frame demoTwoRowDB "M1" "L1" 10 MovementType.GOODS_RECEIPT
    "PC" demoMaterial demoLocation demoStock70 rfl rfl rfl
    (by simp [demoTwoRowDB, demoDB, demoOtherRow, demoStock70])

/-! Claim C10. -/

/-- C10: a posting whose items list is empty is accepted: given a resolvable
location the call succeeds, returns the stored document, stores it, and
leaves the balance table and the ledger unchanged — no minimum-line-count
check exists at the posting interface. -/
theorem C10_empty_items_accepted (db : DB) (gr : GoodsReceiptCreate)
    (gi : GoodsIssueCreate) (locr loci : Location)
    (hgr : find_location db.locations gr.location_id = some locr)
    (hgi : find_location db.locations gi.location_id = some loci)
    (hri : gr.items = []) (hii : gi.items = []) :
    create_goods_receipt db gr =
      (gr_db1 db gr locr, Except.ok (gr_doc db gr locr)) ∧
    (gr_db1 db gr locr).current_stock = db.current_stock ∧
    (gr_db1 db gr locr).stock_movements = db.stock_movements ∧
    (gr_db1 db gr locr).goods_receipts = db.goods_receipts ++ [gr_doc db gr locr] ∧
    create_goods_issue db gi =
      (gi_db1 db gi loci, Except.ok (gi_doc db gi loci)) ∧
    (gi_db1 db gi loci).current_stock = db.current_stock ∧
    (gi_db1 db gi loci).stock_movements = db.stock_movements ∧
    (gi_db1 db gi loci).goods_issues = db.goods_issues ++ [gi_doc db gi loci] := by
  refine ⟨?_, rfl, rfl, rfl, ?_, rfl, rfl, rfl⟩
  · unfold create_goods_receipt
    simp only [hgr, hri]
    rfl
  · unfold create_goods_issue
    simp only [hgi, hii]
    rfl

/-- C10 witness: the theorem applied to the empty-items demo documents. -/
theorem C10_empty_items_accepted_witness :
    create_goods_receipt demoDB demoEmptyReceipt =
      (gr_db1 demoDB demoEmptyReceipt demoLocation,
       Except.ok (gr_doc demoDB demoEmptyReceipt demoLocation)) ∧
    (gr_db1 demoDB demoEmptyReceipt demoLocation).current_stock =
      demoDB.current_stock ∧
    (gr_db1 demoDB demoEmptyReceipt demoLocation).stock_movements =
      demoDB.stock_movements ∧
    (gr_db1 demoDB demoEmptyReceipt demoLocation).goods_receipts =
      demoDB.goods_receipts ++ [gr_doc demoDB demoEmptyReceipt demoLocation] ∧
    create_goods_issue demoDB demoEmptyIssue =
      (gi_db1 demoDB demoEmptyIssue demoLocation,
       Except.ok (gi_doc demoDB demoEmptyIssue demoLocation)) ∧
    (gi_db1 demoDB demoEmptyIssue demoLocation).current_stock =
      demoDB.current_stock ∧
    (gi_db1 demoDB demoEmptyIssue demoLocation).stock_movements =
      demoDB.stock_movements ∧
    (gi_db1 demoDB demoEmptyIssue demoLocation).goods_issues =
      demoDB.goods_issues ++ [gi_doc demoDB demoEmptyIssue demoLocation] :=
  C10_empty_items_accepted demoDB demoEmptyReceipt demoEmptyIssue demoLocation
    demoLocation rfl rfl rfl rfl

end Server
